import Mathlib

/-!
Shallow embedding of the ByteRun virtual machine (`src/byterun.py`): a
stack-based interpreter for compiled instruction sequences, with per-call
frames, a block stack for structured control flow, three-tier name
resolution, and a function-call subsystem.  Guest values are modelled by
the inductive `Value`; host-interpreter services the source delegates to
(the `dis` opcode tables, `inspect.getcallargs`, the builtins module, and
the host value/operator protocols) are modelled explicitly where the
source's behaviour depends on them.
-/

namespace ByteRun

/-- Kinds of host exceptions the interpreter can raise or observe. -/
inductive ExcKind where
  | nameError
  | unboundLocalError
  | typeError
  | keyError
  | indexError
  | attributeError
  | valueError
  | zeroDivisionError
  | stopIteration
  | recursionError
  | vmError
  deriving DecidableEq, Repr

/-- A raised host exception: its class and its message. -/
structure PyExc where
  kind : ExcKind
  msg : String
  deriving DecidableEq, Repr

/-- The explicit `byte_...` handler methods, one constructor per method;
`getHandler` is the `getattr(self, byte_ + name, None)` lookup. -/
inductive HandlerKind where
  | LOAD_CONST
  | LOAD_NAME
  | STORE_NAME
  | LOAD_FAST
  | STORE_FAST
  | LOAD_GLOBAL
  | LOAD_ATTR
  | STORE_ATTR
  | BUILD_LIST
  | BUILD_MAP
  | LIST_APPEND
  | JUMP_FORWARD
  | JUMP_ABSOLUTE
  | POP_JUMP_IF_TRUE
  | POP_JUMP_IF_FALSE
  | SETUP_LOOP
  | FOR_ITER
  | MAKE_FUNCTION
  | CALL_FUNCTION
  | CALL
  | COPY
  | SWAP
  | LOAD_FAST_LOAD_FAST
  | BINARY_OP
  | COMPARE_OP
  | POP_TOP
  | STORE_MAP
  | GET_ITER
  | BREAK_LOOP
  | POP_BLOCK
  | RETURN_VALUE
  | RESUME
  | CACHE
  | PRECALL
  | BEFORE_ASYNC_WITH
  | GET_AWAITABLE
  | GET_AITER
  | GET_ANEXT
  | BEFORE_WITH

/-- `getattr(self, byte_ + byte_name, None)`: the handler method bound to
an opcode name, or `none` when the class defines no such method. -/
def getHandler (n : String) : Option HandlerKind :=
  if n == "LOAD_CONST" then some .LOAD_CONST
  else if n == "LOAD_NAME" then some .LOAD_NAME
  else if n == "STORE_NAME" then some .STORE_NAME
  else if n == "LOAD_FAST" then some .LOAD_FAST
  else if n == "STORE_FAST" then some .STORE_FAST
  else if n == "LOAD_GLOBAL" then some .LOAD_GLOBAL
  else if n == "LOAD_ATTR" then some .LOAD_ATTR
  else if n == "STORE_ATTR" then some .STORE_ATTR
  else if n == "BUILD_LIST" then some .BUILD_LIST
  else if n == "BUILD_MAP" then some .BUILD_MAP
  else if n == "LIST_APPEND" then some .LIST_APPEND
  else if n == "JUMP_FORWARD" then some .JUMP_FORWARD
  else if n == "JUMP_ABSOLUTE" then some .JUMP_ABSOLUTE
  else if n == "POP_JUMP_IF_TRUE" then some .POP_JUMP_IF_TRUE
  else if n == "POP_JUMP_IF_FALSE" then some .POP_JUMP_IF_FALSE
  else if n == "SETUP_LOOP" then some .SETUP_LOOP
  else if n == "FOR_ITER" then some .FOR_ITER
  else if n == "MAKE_FUNCTION" then some .MAKE_FUNCTION
  else if n == "CALL_FUNCTION" then some .CALL_FUNCTION
  else if n == "CALL" then some .CALL
  else if n == "COPY" then some .COPY
  else if n == "SWAP" then some .SWAP
  else if n == "LOAD_FAST_LOAD_FAST" then some .LOAD_FAST_LOAD_FAST
  else if n == "BINARY_OP" then some .BINARY_OP
  else if n == "COMPARE_OP" then some .COMPARE_OP
  else if n == "POP_TOP" then some .POP_TOP
  else if n == "STORE_MAP" then some .STORE_MAP
  else if n == "GET_ITER" then some .GET_ITER
  else if n == "BREAK_LOOP" then some .BREAK_LOOP
  else if n == "POP_BLOCK" then some .POP_BLOCK
  else if n == "RETURN_VALUE" then some .RETURN_VALUE
  else if n == "RESUME" then some .RESUME
  else if n == "CACHE" then some .CACHE
  else if n == "PRECALL" then some .PRECALL
  else if n == "BEFORE_ASYNC_WITH" then some .BEFORE_ASYNC_WITH
  else if n == "GET_AWAITABLE" then some .GET_AWAITABLE
  else if n == "GET_AITER" then some .GET_AITER
  else if n == "GET_ANEXT" then some .GET_ANEXT
  else if n == "BEFORE_WITH" then some .BEFORE_WITH
  else Option.none

mutual

/-- Guest values.  Containers hold further values; `code` wraps a code
unit; `fn` is a `Function` object (name, code, defaults, captured
globals); `builtinsModule` stands for the host builtins module object;
`excType`/`excInst` are exception classes and instances; `iter` is a
host iterator with its remaining items. -/
inductive Value where
  | none
  | bool (b : Bool)
  | int (n : Int)
  | str (s : String)
  | list (xs : List Value)
  | dict (entries : List (Value × Value))
  | iter (xs : List Value)
  | code (c : CodeObj)
  | fn (name : String) (code : CodeObj) (defaults : List Value)
       (globals : List (Value × Value))
  | excType (k : ExcKind)
  | excInst (k : ExcKind) (m : String)
  | builtinsModule

/-- A code unit: name, raw instruction bytes, constant pool, name table,
local-variable name table, declared positional-parameter count. -/
inductive CodeObj where
  | mk (co_name : String) (co_code : List Nat) (co_consts : List Value)
       (co_names : List String) (co_varnames : List String)
       (co_argcount : Nat)

end

def CodeObj.co_name : CodeObj → String
  | .mk n _ _ _ _ _ => n

def CodeObj.co_code : CodeObj → List Nat
  | .mk _ c _ _ _ _ => c

def CodeObj.co_consts : CodeObj → List Value
  | .mk _ _ cs _ _ _ => cs

def CodeObj.co_names : CodeObj → List String
  | .mk _ _ _ ns _ _ => ns

def CodeObj.co_varnames : CodeObj → List String
  | .mk _ _ _ _ vs _ => vs

def CodeObj.co_argcount : CodeObj → Nat
  | .mk _ _ _ _ _ a => a

/-- Mappings in the interpreter (scope dictionaries, guest dicts) are
association lists of values, insertion-ordered like host dicts. -/
abbrev ScopeMap := List (Value × Value)

/-- Dictionary-key equality for the hashable scalar values; container and
function keys use host identity/hashing, which has no counterpart here,
so they never compare equal.  Host booleans equal the matching integers. -/
def Value.keyEq : Value → Value → Bool
  | .none, .none => true
  | .bool a, .bool b => a == b
  | .bool a, .int b => (if a then (1 : Int) else 0) == b
  | .int a, .bool b => a == (if b then (1 : Int) else 0)
  | .int a, .int b => a == b
  | .str a, .str b => a == b
  | .excType a, .excType b => a == b
  | .builtinsModule, .builtinsModule => true
  | _, _ => false

/-- First-match lookup, the embedding of `d[k]` / `k in d`. -/
def mapLookup (m : ScopeMap) (k : Value) : Option Value :=
  (m.find? (fun p => p.1.keyEq k)).map (·.2)

def mapContains (m : ScopeMap) (k : Value) : Bool :=
  (mapLookup m k).isSome

/-- `d[k] = v`: overwrite in place if the key exists, else append,
matching host dict insertion-order semantics. -/
def mapInsert (m : ScopeMap) (k v : Value) : ScopeMap :=
  if mapContains m k then
    m.map (fun p => if p.1.keyEq k then (p.1, v) else p)
  else
    m ++ [(k, v)]

/-- `d.update(d2)`. -/
def mapUpdate (m m2 : ScopeMap) : ScopeMap :=
  m2.foldl (fun acc p => mapInsert acc p.1 p.2) m

/-- `Block = namedtuple("Block", "type, handler, stack_height")`.  The
handler is `None` for except-handler blocks. -/
structure Block where
  type : String
  handler : Option Nat
  stack_height : Nat
  deriving Repr

/-- One activation record (`class Frame`).  The builtins reference is an
arbitrary value, as in the source, where a non-mapping `__builtins__`
entry is kept as-is. -/
structure Frame where
  code_obj : CodeObj
  global_names : ScopeMap
  local_names : ScopeMap
  builtin_names : Value
  stack : List Value
  block_stack : List Block
  last_instruction : Nat

/-- The `VirtualMachine` instance state.  The current frame (`self.frame`,
aliased to `self.frames[-1]` in the source) is the head of `frames`. -/
structure VMState where
  frames : List Frame
  return_value : Value
  last_exception : Option (Value × Value × Value)

/-- `VirtualMachine.__init__`. -/
def initVM : VMState :=
  { frames := [], return_value := .none, last_exception := Option.none }

/-- The contents of the host builtins module (`__builtins__.__dict__`).
These are external host data (spec section 6); the core never depends on
any particular entry, so the model leaves the table empty. -/
def hostBuiltins : ScopeMap := []

/-- The dictionary the source builds for a module-scope frame when no
scopes are supplied to `make_frame`. -/
def defaultModuleScope : ScopeMap :=
  [(.str "__builtins__", .builtinsModule), (.str "__name__", .str "__main__"),
   (.str "__doc__", .none), (.str "__package__", .none)]

/-- `Frame.__init__`: the builtins mapping is inherited from the caller
frame, or taken from `local_names["__builtins__"]` for a root frame,
dereferencing a module object to its attribute dictionary.  A `Function`
value has a `__dict__` slot, so it dereferences to its (empty) instance
dictionary; other values are kept as-is. -/
def Frame.init (code : CodeObj) (global_names local_names : ScopeMap)
    (prev : Option Frame) : Except PyExc Frame :=
  match prev with
  | some p =>
      .ok { code_obj := code, global_names := global_names,
            local_names := local_names, builtin_names := p.builtin_names,
            stack := [], block_stack := [], last_instruction := 0 }
  | Option.none =>
      match mapLookup local_names (.str "__builtins__") with
      | Option.none => .error ⟨.keyError, "__builtins__"⟩
      | some b =>
          let bn : Value := match b with
            | .builtinsModule => .dict hostBuiltins
            | .fn _ _ _ _ => .dict []
            | v => v
          .ok { code_obj := code, global_names := global_names,
                local_names := local_names, builtin_names := bn,
                stack := [], block_stack := [], last_instruction := 0 }

/-- `VirtualMachine.make_frame`.  When both scopes are omitted at module
level the source uses one shared dictionary for globals and locals; the
model stores the same initial contents in both fields (the aliasing
itself is not tracked). -/
def make_frame (vm : VMState) (code : CodeObj) (callargs : ScopeMap)
    (global_names local_names : Option ScopeMap) : Except PyExc Frame :=
  let scopes : ScopeMap × ScopeMap :=
    match global_names, local_names with
    | Option.none, Option.none =>
        match vm.frames with
        | f :: _ => (f.global_names, [])
        | [] => (defaultModuleScope, defaultModuleScope)
    | some g, Option.none => (g, [])
    | Option.none, some l => (l, l)
    | some g, some l => (g, l)
  let g := scopes.1
  let l := scopes.2
  let l :=
    if mapContains l (.str "__builtins__") then l
    else if !g.isEmpty && mapContains g (.str "__builtins__") then
      mapInsert l (.str "__builtins__")
        ((mapLookup g (.str "__builtins__")).getD .none)
    else
      mapInsert l (.str "__builtins__") .builtinsModule
  let l := mapUpdate l callargs
  Frame.init code g l vm.frames.head?

/-- `VirtualMachine.push_frame`. -/
def push_frame (vm : VMState) (f : Frame) : VMState :=
  { vm with frames := f :: vm.frames }

/-- `VirtualMachine.pop_frame`. -/
def pop_frame (vm : VMState) : VMState :=
  { vm with frames := vm.frames.tail }

/-- `self.push(*vals)`: extend the current frame's data stack (stack top
is the list end, as in the source). -/
def pushVals (vm : VMState) (vs : List Value) : VMState :=
  match vm.frames with
  | [] => vm
  | f :: rest => { vm with frames := { f with stack := f.stack ++ vs } :: rest }

/-- `self.pop()`: remove and return the stack top; an empty stack is a
host IndexError. -/
def popVal (vm : VMState) : VMState × Except PyExc Value :=
  match vm.frames with
  | [] => (vm, .error ⟨.attributeError, "NoneType object has no attribute stack"⟩)
  | f :: rest =>
      match f.stack.getLast? with
      | Option.none => (vm, .error ⟨.indexError, "pop from empty list"⟩)
      | some v =>
          ({ vm with frames := { f with stack := f.stack.dropLast } :: rest }, .ok v)

/-- `self.popn(n)`: remove and return the top `n` values in stack order.
Like the host slice `stack[-n:]`, it returns fewer values when the stack
is shorter than `n`; callers that unpack the result detect that. -/
def popn (vm : VMState) (n : Nat) : VMState × List Value :=
  match vm.frames with
  | [] => (vm, [])
  | f :: rest =>
      if n = 0 then (vm, [])
      else
        let keep := f.stack.take (f.stack.length - n)
        let ret := f.stack.drop (f.stack.length - n)
        ({ vm with frames := { f with stack := keep } :: rest }, ret)

/-- `self.top()`. -/
def topVal (vm : VMState) : Except PyExc Value :=
  match vm.frames with
  | [] => .error ⟨.attributeError, "NoneType object has no attribute stack"⟩
  | f :: _ =>
      match f.stack.getLast? with
      | Option.none => .error ⟨.indexError, "list index out of range"⟩
      | some v => .ok v

/-- `VirtualMachine.push_block`. -/
def push_block (vm : VMState) (b_type : String) (handler : Option Nat) : VMState :=
  match vm.frames with
  | [] => vm
  | f :: rest =>
      { vm with frames :=
          { f with block_stack :=
              f.block_stack ++ [⟨b_type, handler, f.stack.length⟩] } :: rest }

/-- `VirtualMachine.pop_block` (the popped block is re-read by the caller
from the block stack, so only the removal is modelled). -/
def pop_block (vm : VMState) : VMState :=
  match vm.frames with
  | [] => vm
  | f :: rest =>
      { vm with frames := { f with block_stack := f.block_stack.dropLast } :: rest }

/-- `VirtualMachine.jump`. -/
def jump (vm : VMState) (target : Nat) : VMState :=
  match vm.frames with
  | [] => vm
  | f :: rest => { vm with frames := { f with last_instruction := target } :: rest }

/-- `VirtualMachine.unwind_block`: truncate the data stack to the block's
recorded height, keeping 3 extra slots for an except-handler block, which
are then popped as `(traceback, value, exctype)` into `last_exception`.
If fewer than 3 slots remain for the unpacking, the host raises a
ValueError (the state reflects the pops already performed). -/
def unwind_block (vm : VMState) (b : Block) : VMState × Except PyExc Unit :=
  match vm.frames with
  | [] => (vm, .error ⟨.attributeError, "NoneType object has no attribute stack"⟩)
  | f :: rest =>
      let offset : Nat := if b.type == "except-handler" then 3 else 0
      let stack1 := f.stack.take (b.stack_height + offset)
      if b.type == "except-handler" then
        let kept := stack1.take (stack1.length - 3)
        let popped := stack1.drop (stack1.length - 3)
        match popped with
        | [tb, v, ty] =>
            ({ vm with frames := { f with stack := kept } :: rest,
                       last_exception := some (ty, v, tb) }, .ok ())
        | _ =>
            ({ vm with frames := { f with stack := kept } :: rest },
             .error ⟨.valueError, "not enough values to unpack"⟩)
      else
        ({ vm with frames := { f with stack := stack1 } :: rest }, .ok ())

/-- A jump target taken from `self.return_value` (the dead
`loop`+`continue` path: no handler in this interpreter emits a
`continue` signal); a non-integer value would crash the host decode. -/
def asJumpTarget : Value → Nat
  | .int n => n.toNat
  | _ => 0

/-- `VirtualMachine.manage_block_stack`: route one unwind signal through
the top block.  Returns the surviving signal, or a host exception that
propagates out of the driver loop. -/
def manage_block_stack (vm : VMState) (why : String) :
    VMState × Except PyExc (Option String) :=
  match vm.frames with
  | [] => (vm, .error ⟨.attributeError, "NoneType object has no attribute block_stack"⟩)
  | f :: _ =>
      match f.block_stack.getLast? with
      | Option.none => (vm, .error ⟨.indexError, "list index out of range"⟩)
      | some block =>
          if block.type == "loop" && why == "continue" then
            (jump vm (asJumpTarget vm.return_value), .ok Option.none)
          else
            let vm := pop_block vm
            let (vm, r) := unwind_block vm block
            match r with
            | .error e => (vm, .error e)
            | .ok () =>
                if block.type == "loop" && why == "break" then
                  (jump vm (block.handler.getD 0), .ok Option.none)
                else if (block.type == "setup-except" || block.type == "finally")
                    && why == "exception" then
                  let vm := push_block vm "except-handler" Option.none
                  let e := vm.last_exception.getD (.none, .none, .none)
                  let vm := pushVals vm [e.2.2, e.2.1, e.1]
                  let vm := pushVals vm [e.2.2, e.2.1, e.1]
                  (jump vm (block.handler.getD 0), .ok Option.none)
                else if block.type == "finally" then
                  let vm :=
                    if why == "return" || why == "continue" then
                      pushVals vm [vm.return_value]
                    else vm
                  let vm := pushVals vm [.str why]
                  (jump vm (block.handler.getD 0), .ok Option.none)
                else
                  (vm, .ok (some why))

/-- The driver's inner `while why and frame.block_stack` loop.  Each
iteration that keeps a signal pops one block, so the block-stack length
bounds the iterations; the fuel is set above it by the caller. -/
def manageWhile : Nat → VMState → Option String → VMState × Except PyExc (Option String)
  | _, vm, Option.none => (vm, .ok Option.none)
  | 0, vm, some w => (vm, .ok (some w))
  | n + 1, vm, some w =>
      match vm.frames with
      | [] => (vm, .ok (some w))
      | f :: _ =>
          if f.block_stack.isEmpty then (vm, .ok (some w))
          else
            let (vm', r) := manage_block_stack vm w
            match r with
            | .error e => (vm', .error e)
            | .ok w' => manageWhile n vm' w'

/-- The host `dis` module data the decoder consults: the opcode name
table, the argument threshold, and the operand-class sets.  These are
host-interpreter data, external to the repository. -/
structure DisTable where
  opname : Nat → String
  HAVE_ARGUMENT : Nat
  hasconst : List Nat
  hasname : List Nat
  haslocal : List Nat
  hasjrel : List Nat

/-- `VirtualMachine.parse_byte_and_args`: fetch and decode one
instruction at the current frame's instruction pointer.  Past the end of
the byte stream it synthesizes a `RETURN_VALUE`; an argument-taking
opcode with fewer than two trailing operand bytes decodes to a zero
operand with the pointer advanced only past the opcode byte. -/
def parse_byte_and_args (tbl : DisTable) (vm : VMState) :
    VMState × Except PyExc (String × List Value) :=
  match vm.frames with
  | [] => (vm, .error ⟨.attributeError, "NoneType object has no attribute last_instruction"⟩)
  | f :: rest =>
      let code := f.code_obj
      let opoffset := f.last_instruction
      if opoffset ≥ code.co_code.length then
        (vm, .ok ("RETURN_VALUE", []))
      else
        let byteCode := code.co_code.getD opoffset 0
        let f1 := { f with last_instruction := opoffset + 1 }
        let vm1 := { vm with frames := f1 :: rest }
        let byte_name := tbl.opname byteCode
        if byteCode ≥ tbl.HAVE_ARGUMENT then
          if f1.last_instruction + 1 ≥ code.co_code.length then
            (vm1, .ok (byte_name, [.int 0]))
          else
            let b0 := code.co_code.getD f1.last_instruction 0
            let b1 := code.co_code.getD (f1.last_instruction + 1) 0
            let f2 := { f1 with last_instruction := f1.last_instruction + 2 }
            let vm2 := { vm with frames := f2 :: rest }
            let arg_val : Nat := b0 ||| (b1 <<< 8)
            let arg : Value :=
              if tbl.hasconst.contains byteCode then
                if arg_val < code.co_consts.length then
                  code.co_consts.getD arg_val .none
                else
                  .none
              else if tbl.hasname.contains byteCode then
                if arg_val < code.co_names.length then
                  .str (code.co_names.getD arg_val "")
                else
                  .int arg_val
              else if tbl.haslocal.contains byteCode then
                if arg_val < code.co_varnames.length then
                  .str (code.co_varnames.getD arg_val "")
                else
                  .int arg_val
              else if tbl.hasjrel.contains byteCode then
                .int (f2.last_instruction + arg_val)
              else
                .int arg_val
            (vm2, .ok (byte_name, [arg]))
        else
          (vm1, .ok (byte_name, []))

/-- The result of running one handler: the mutated state, and either an
unwind signal (or none) or a host exception for the dispatch `except`
clause to capture. -/
abbrev HRes := VMState × Except PyExc (Option String)

/-- Host truthiness (`bool(x)`). -/
def truthy : Value → Bool
  | .none => false
  | .bool b => b
  | .int n => n ≠ 0
  | .str s => s ≠ ""
  | .list xs => !xs.isEmpty
  | .dict m => !m.isEmpty
  | _ => true

/-- Host integers for arithmetic: booleans are integers in the host. -/
def asInt : Value → Option Int
  | .int n => some n
  | .bool b => some (if b then 1 else 0)
  | _ => Option.none

/-- A host TypeError for an operator applied to unsupported operand
types. -/
def opTypeError : PyExc := ⟨.typeError, "unsupported operand type(s)"⟩

/-- `operator.add`: integers, string concatenation, list concatenation;
other host addition protocols are external to the modelled value set. -/
def vAdd (x y : Value) : Except PyExc Value :=
  match x, y with
  | .str a, .str b => .ok (.str (a ++ b))
  | .list a, .list b => .ok (.list (a ++ b))
  | _, _ =>
      match asInt x, asInt y with
      | some a, some b => .ok (.int (a + b))
      | _, _ => .error opTypeError

def vSub (x y : Value) : Except PyExc Value :=
  match asInt x, asInt y with
  | some a, some b => .ok (.int (a - b))
  | _, _ => .error opTypeError

def vMul (x y : Value) : Except PyExc Value :=
  match asInt x, asInt y with
  | some a, some b => .ok (.int (a * b))
  | _, _ => .error opTypeError

/-- `operator.floordiv` with the host's floor semantics and
ZeroDivisionError. -/
def vFloorDiv (x y : Value) : Except PyExc Value :=
  match asInt x, asInt y with
  | some a, some b =>
      if b = 0 then .error ⟨.zeroDivisionError, "integer division or modulo by zero"⟩
      else .ok (.int (Int.fdiv a b))
  | _, _ => .error opTypeError

/-- `operator.truediv`.  Host true division produces floats, which are
outside the modelled value set; the model covers the exact-quotient case
and treats an inexact quotient as an unmodelled host-float result. -/
def vTrueDiv (x y : Value) : Except PyExc Value :=
  match asInt x, asInt y with
  | some a, some b =>
      if b = 0 then .error ⟨.zeroDivisionError, "division by zero"⟩
      else if b ∣ a then .ok (.int (Int.fdiv a b))
      else .error ⟨.typeError, "host float result outside the modelled values"⟩
  | _, _ => .error opTypeError

def vMod (x y : Value) : Except PyExc Value :=
  match asInt x, asInt y with
  | some a, some b =>
      if b = 0 then .error ⟨.zeroDivisionError, "integer division or modulo by zero"⟩
      else .ok (.int (Int.fmod a b))
  | _, _ => .error opTypeError

/-- `pow`.  A negative exponent gives a host float, outside the modelled
value set. -/
def vPow (x y : Value) : Except PyExc Value :=
  match asInt x, asInt y with
  | some a, some b =>
      if b < 0 then .error ⟨.typeError, "host float result outside the modelled values"⟩
      else .ok (.int (a ^ b.toNat))
  | _, _ => .error opTypeError

def vLShift (x y : Value) : Except PyExc Value :=
  match asInt x, asInt y with
  | some a, some b =>
      if b < 0 then .error ⟨.valueError, "negative shift count"⟩
      else .ok (.int (a * (2 : Int) ^ b.toNat))
  | _, _ => .error opTypeError

def vRShift (x y : Value) : Except PyExc Value :=
  match asInt x, asInt y with
  | some a, some b =>
      if b < 0 then .error ⟨.valueError, "negative shift count"⟩
      else .ok (.int (a >>> b.toNat))
  | _, _ => .error opTypeError

def vAnd (x y : Value) : Except PyExc Value :=
  match asInt x, asInt y with
  | some a, some b => .ok (.int (Int.land a b))
  | _, _ => .error opTypeError

def vOr (x y : Value) : Except PyExc Value :=
  match asInt x, asInt y with
  | some a, some b => .ok (.int (Int.lor a b))
  | _, _ => .error opTypeError

def vXor (x y : Value) : Except PyExc Value :=
  match asInt x, asInt y with
  | some a, some b => .ok (.int (Int.xor a b))
  | _, _ => .error opTypeError

/-- `operator.matmul`: no modelled value supports it, matching the host,
where integers raise a TypeError. -/
def vMatMul (_ _ : Value) : Except PyExc Value :=
  .error opTypeError

/-- `operator.getitem`. -/
def vSubscr (x y : Value) : Except PyExc Value :=
  match x with
  | .list xs =>
      match asInt y with
      | some i =>
          let j : Int := if i < 0 then i + xs.length else i
          if 0 ≤ j ∧ j.toNat < xs.length then
            .ok (xs.getD j.toNat .none)
          else .error ⟨.indexError, "list index out of range"⟩
      | Option.none => .error ⟨.typeError, "list indices must be integers"⟩
  | .str s =>
      match asInt y with
      | some i =>
          let cs := s.toList
          let j : Int := if i < 0 then i + cs.length else i
          if 0 ≤ j ∧ j.toNat < cs.length then
            .ok (.str (String.mk [cs.getD j.toNat ' ']))
          else .error ⟨.indexError, "string index out of range"⟩
      | Option.none => .error ⟨.typeError, "string indices must be integers"⟩
  | .dict m =>
      match mapLookup m y with
      | some v => .ok v
      | Option.none => .error ⟨.keyError, "key not found"⟩
  | _ => .error ⟨.typeError, "object is not subscriptable"⟩

/-- `VirtualMachine.BINARY_OPERATORS`, keyed by operator symbol. -/
def BINARY_OPERATORS (op : String) : Option (Value → Value → Except PyExc Value) :=
  if op == "POWER" then some vPow
  else if op == "MULTIPLY" then some vMul
  else if op == "FLOOR_DIVIDE" then some vFloorDiv
  else if op == "TRUE_DIVIDE" then some vTrueDiv
  else if op == "MODULO" then some vMod
  else if op == "ADD" then some vAdd
  else if op == "SUBTRACT" then some vSub
  else if op == "SUBSCR" then some vSubscr
  else if op == "LSHIFT" then some vLShift
  else if op == "RSHIFT" then some vRShift
  else if op == "AND" then some vAnd
  else if op == "XOR" then some vXor
  else if op == "OR" then some vOr
  else Option.none

/-- `VirtualMachine.binaryOperator`: `x, y = popn(2)` (so `x` is below
`y`), then look the operator up (a missing key is a host KeyError) and
push the result. -/
def binaryOperator (vm : VMState) (op : String) : HRes :=
  let (vm, vals) := popn vm 2
  match vals with
  | [x, y] =>
      match BINARY_OPERATORS op with
      | Option.none => (vm, .error ⟨.keyError, op⟩)
      | some f =>
          match f x y with
          | .error e => (vm, .error e)
          | .ok r => (pushVals vm [r], .ok Option.none)
  | _ => (vm, .error ⟨.valueError, "not enough values to unpack"⟩)

/-- `VirtualMachine.unaryOperator`.  An unknown unary name raises the
interpreter's own `VirtualMachineError`. -/
def unaryOperator (vm : VMState) (op : String) : HRes :=
  let (vm, r) := popVal vm
  match r with
  | .error e => (vm, .error e)
  | .ok x =>
      if op == "POSITIVE" then
        match asInt x with
        | some a => (pushVals vm [.int a], .ok Option.none)
        | Option.none => (vm, .error opTypeError)
      else if op == "NEGATIVE" then
        match asInt x with
        | some a => (pushVals vm [.int (-a)], .ok Option.none)
        | Option.none => (vm, .error opTypeError)
      else if op == "NOT" then
        (pushVals vm [.bool (!truthy x)], .ok Option.none)
      else if op == "INVERT" then
        match asInt x with
        | some a => (pushVals vm [.int (-(a + 1))], .ok Option.none)
        | Option.none => (vm, .error opTypeError)
      else
        (vm, .error ⟨.vmError, "Unknown unary operator: " ++ op⟩)

/-- One entry of `COMPARE_OPERATORS`, applied to `(x, y)`.  Order
comparisons are modelled on host integers and strings; equality on the
hashable scalars; the containment, identity, and exception-match entries
delegate to host protocols outside the modelled value set. -/
def compareOp (opnum : Nat) (x y : Value) : Except PyExc Value :=
  let ordCmp : (Int → Int → Bool) → (String → String → Bool) → Except PyExc Value :=
    fun fi fs =>
      match x, y with
      | .str a, .str b => .ok (.bool (fs a b))
      | _, _ =>
          match asInt x, asInt y with
          | some a, some b => .ok (.bool (fi a b))
          | _, _ => .error ⟨.typeError, "comparison not supported between these types"⟩
  match opnum with
  | 0 => ordCmp (· < ·) (· < ·)
  | 1 => ordCmp (· ≤ ·) (· ≤ ·)
  | 2 => .ok (.bool (x.keyEq y))
  | 3 => .ok (.bool (!x.keyEq y))
  | 4 => ordCmp (· > ·) (· > ·)
  | 5 => ordCmp (· ≥ ·) (· ≥ ·)
  | _ =>
      if opnum < 11 then
        .error ⟨.typeError, "host containment, identity and subclass tests are outside the modelled values"⟩
      else
        .error ⟨.indexError, "list index out of range"⟩

/-- `iter(x)` for the modelled values. -/
def vIter : Value → Except PyExc Value
  | .list xs => .ok (.iter xs)
  | .str s => .ok (.iter (s.toList.map (fun c => .str (String.mk [c]))))
  | .dict m => .ok (.iter (m.map (·.1)))
  | .iter xs => .ok (.iter xs)
  | _ => .error ⟨.typeError, "object is not iterable"⟩

/-- `byte_LOAD_CONST`. -/
def byte_LOAD_CONST (vm : VMState) (const : Value) : HRes :=
  (pushVals vm [const], .ok Option.none)

/-- `byte_POP_TOP`. -/
def byte_POP_TOP (vm : VMState) : HRes :=
  let (vm, r) := popVal vm
  match r with
  | .error e => (vm, .error e)
  | .ok _ => (vm, .ok Option.none)

/-- `byte_LOAD_NAME`: locals, then globals, then builtins; a missing name
raises NameError.  A non-mapping builtins reference makes the host `in`
test raise a TypeError. -/
def byte_LOAD_NAME (vm : VMState) (name : Value) : HRes :=
  match vm.frames with
  | [] => (vm, .error ⟨.attributeError, "NoneType object has no attribute f_locals"⟩)
  | f :: rest =>
      match mapLookup f.local_names name with
      | some v =>
          ({ vm with frames := { f with stack := f.stack ++ [v] } :: rest },
           .ok Option.none)
      | Option.none =>
          match mapLookup f.global_names name with
          | some v =>
              ({ vm with frames := { f with stack := f.stack ++ [v] } :: rest },
               .ok Option.none)
          | Option.none =>
              match f.builtin_names with
              | .dict b =>
                  match mapLookup b name with
                  | some v =>
                      ({ vm with frames := { f with stack := f.stack ++ [v] } :: rest },
                       .ok Option.none)
                  | Option.none =>
                      (vm, .error ⟨.nameError, "name is not defined"⟩)
              | _ => (vm, .error ⟨.typeError, "argument of type is not iterable"⟩)

/-- `byte_STORE_NAME`. -/
def byte_STORE_NAME (vm : VMState) (name : Value) : HRes :=
  let (vm, r) := popVal vm
  match r with
  | .error e => (vm, .error e)
  | .ok v =>
      match vm.frames with
      | [] => (vm, .error ⟨.attributeError, "NoneType object has no attribute f_locals"⟩)
      | f :: rest =>
          ({ vm with frames :=
              { f with local_names := mapInsert f.local_names name v } :: rest },
           .ok Option.none)

/-- `byte_LOAD_FAST`: locals only; a missing name raises
UnboundLocalError, not NameError. -/
def byte_LOAD_FAST (vm : VMState) (name : Value) : HRes :=
  match vm.frames with
  | [] => (vm, .error ⟨.attributeError, "NoneType object has no attribute f_locals"⟩)
  | f :: rest =>
      match mapLookup f.local_names name with
      | some v =>
          ({ vm with frames := { f with stack := f.stack ++ [v] } :: rest },
           .ok Option.none)
      | Option.none =>
          (vm, .error ⟨.unboundLocalError, "local variable referenced before assignment"⟩)

/-- `byte_STORE_FAST`. -/
def byte_STORE_FAST (vm : VMState) (name : Value) : HRes :=
  byte_STORE_NAME vm name

/-- `byte_LOAD_GLOBAL`: globals then builtins; a missing name raises
NameError. -/
def byte_LOAD_GLOBAL (vm : VMState) (name : Value) : HRes :=
  match vm.frames with
  | [] => (vm, .error ⟨.attributeError, "NoneType object has no attribute f_globals"⟩)
  | f :: rest =>
      match mapLookup f.global_names name with
      | some v =>
          ({ vm with frames := { f with stack := f.stack ++ [v] } :: rest },
           .ok Option.none)
      | Option.none =>
          match f.builtin_names with
          | .dict b =>
              match mapLookup b name with
              | some v =>
                  ({ vm with frames := { f with stack := f.stack ++ [v] } :: rest },
                   .ok Option.none)
              | Option.none =>
                  (vm, .error ⟨.nameError, "global name is not defined"⟩)
          | _ => (vm, .error ⟨.typeError, "argument of type is not iterable"⟩)

/-- `byte_LOAD_ATTR`: attribute access delegates to the host value
protocol, which is external to the modelled value set (spec section
4.2); every modelled value reports the attribute missing. -/
def byte_LOAD_ATTR (vm : VMState) (_attr : Value) : HRes :=
  let (vm, r) := popVal vm
  match r with
  | .error e => (vm, .error e)
  | .ok _ => (vm, .error ⟨.attributeError, "object has no such attribute"⟩)

/-- `byte_STORE_ATTR`: likewise external; the two pops happen first. -/
def byte_STORE_ATTR (vm : VMState) (_name : Value) : HRes :=
  let (vm, vals) := popn vm 2
  match vals with
  | [_val, _obj] => (vm, .error ⟨.attributeError, "object attribute assignment unsupported"⟩)
  | _ => (vm, .error ⟨.valueError, "not enough values to unpack"⟩)

/-- `byte_BUILD_LIST`. -/
def byte_BUILD_LIST (vm : VMState) (count : Value) : HRes :=
  match asInt count with
  | some n =>
      let (vm, elts) := popn vm n.toNat
      (pushVals vm [.list elts], .ok Option.none)
  | Option.none => (vm, .error ⟨.typeError, "count must be an integer"⟩)

/-- `byte_BUILD_MAP`: pushes a fresh empty dict; the size operand is
ignored and nothing is popped. -/
def byte_BUILD_MAP (vm : VMState) (_size : Value) : HRes :=
  (pushVals vm [.dict []], .ok Option.none)

/-- `byte_STORE_MAP`. -/
def byte_STORE_MAP (vm : VMState) : HRes :=
  let (vm, vals) := popn vm 3
  match vals with
  | [the_map, v, k] =>
      match the_map with
      | .dict m =>
          match k with
          | .list _ | .dict _ => (vm, .error ⟨.typeError, "unhashable type"⟩)
          | _ => (pushVals vm [.dict (mapInsert m k v)], .ok Option.none)
      | _ => (vm, .error ⟨.typeError, "object does not support item assignment"⟩)
  | _ => (vm, .error ⟨.valueError, "not enough values to unpack"⟩)

/-- `byte_LIST_APPEND`: appends the popped value to the list `count`
slots below the top, mutating it in place on the stack. -/
def byte_LIST_APPEND (vm : VMState) (count : Value) : HRes :=
  let (vm, r) := popVal vm
  match r with
  | .error e => (vm, .error e)
  | .ok v =>
      match asInt count with
      | Option.none => (vm, .error ⟨.typeError, "list indices must be integers"⟩)
      | some c =>
          match vm.frames with
          | [] => (vm, .error ⟨.attributeError, "NoneType object has no attribute stack"⟩)
          | f :: rest =>
              let n := f.stack.length
              let idx : Int := if c ≤ 0 then (0 : Int) - c else (n : Int) - c
              if 0 ≤ idx ∧ idx.toNat < n then
                match f.stack.getD idx.toNat .none with
                | .list xs =>
                    ({ vm with frames :=
                        { f with stack := f.stack.set idx.toNat (.list (xs ++ [v])) } :: rest },
                     .ok Option.none)
                | _ => (vm, .error ⟨.attributeError, "object has no attribute append"⟩)
              else (vm, .error ⟨.indexError, "list index out of range"⟩)

/-- `byte_JUMP_FORWARD` (the decoder already resolved the target to an
absolute offset). -/
def byte_JUMP_FORWARD (vm : VMState) (target : Value) : HRes :=
  (jump vm (asJumpTarget target), .ok Option.none)

/-- `byte_JUMP_ABSOLUTE`. -/
def byte_JUMP_ABSOLUTE (vm : VMState) (target : Value) : HRes :=
  (jump vm (asJumpTarget target), .ok Option.none)

/-- `byte_POP_JUMP_IF_TRUE`. -/
def byte_POP_JUMP_IF_TRUE (vm : VMState) (target : Value) : HRes :=
  let (vm, r) := popVal vm
  match r with
  | .error e => (vm, .error e)
  | .ok v =>
      if truthy v then (jump vm (asJumpTarget target), .ok Option.none)
      else (vm, .ok Option.none)

/-- `byte_POP_JUMP_IF_FALSE`. -/
def byte_POP_JUMP_IF_FALSE (vm : VMState) (target : Value) : HRes :=
  let (vm, r) := popVal vm
  match r with
  | .error e => (vm, .error e)
  | .ok v =>
      if truthy v then (vm, .ok Option.none)
      else (jump vm (asJumpTarget target), .ok Option.none)

/-- `byte_SETUP_LOOP`. -/
def byte_SETUP_LOOP (vm : VMState) (dest : Value) : HRes :=
  (push_block vm "loop" (some (asJumpTarget dest)), .ok Option.none)

/-- `byte_GET_ITER`. -/
def byte_GET_ITER (vm : VMState) : HRes :=
  let (vm, r) := popVal vm
  match r with
  | .error e => (vm, .error e)
  | .ok v =>
      match vIter v with
      | .error e => (vm, .error e)
      | .ok it => (pushVals vm [it], .ok Option.none)

/-- `byte_FOR_ITER`: advance the iterator at the stack top in place and
push the next item, or on exhaustion pop it and jump. -/
def byte_FOR_ITER (vm : VMState) (target : Value) : HRes :=
  match vm.frames with
  | [] => (vm, .error ⟨.attributeError, "NoneType object has no attribute stack"⟩)
  | f :: rest =>
      match f.stack.getLast? with
      | Option.none => (vm, .error ⟨.indexError, "list index out of range"⟩)
      | some it =>
          match it with
          | .iter (v :: xs) =>
              let vm := { vm with frames :=
                  { f with stack := f.stack.dropLast ++ [.iter xs, v] } :: rest }
              (vm, .ok Option.none)
          | .iter [] =>
              let vm := { vm with frames :=
                  { f with stack := f.stack.dropLast } :: rest }
              (jump vm (asJumpTarget target), .ok Option.none)
          | _ => (vm, .error ⟨.typeError, "object is not an iterator"⟩)

/-- `byte_BREAK_LOOP`. -/
def byte_BREAK_LOOP (vm : VMState) : HRes :=
  (vm, .ok (some "break"))

/-- `byte_POP_BLOCK`. -/
def byte_POP_BLOCK (vm : VMState) : HRes :=
  match vm.frames with
  | [] => (vm, .error ⟨.attributeError, "NoneType object has no attribute block_stack"⟩)
  | f :: _ =>
      if f.block_stack.isEmpty then
        (vm, .error ⟨.indexError, "pop from empty list"⟩)
      else
        (pop_block vm, .ok Option.none)

/-- `byte_MAKE_FUNCTION`: pop the name, the code object, and `argc`
default values, and push a `Function` that captures the current globals.
A falsy name falls back to the code unit's own name; building a function
from a non-code value fails the host attribute access in
`Function.__init__`. -/
def byte_MAKE_FUNCTION (vm : VMState) (argc : Value) : HRes :=
  let (vm, rn) := popVal vm
  match rn with
  | .error e => (vm, .error e)
  | .ok nameV =>
      let (vm, rc) := popVal vm
      match rc with
      | .error e => (vm, .error e)
      | .ok codeV =>
          match asInt argc with
          | Option.none => (vm, .error ⟨.typeError, "argc must be an integer"⟩)
          | some n =>
              let (vm, defaults) := popn vm n.toNat
              match codeV with
              | .code c =>
                  match vm.frames with
                  | [] => (vm, .error ⟨.attributeError, "NoneType object has no attribute f_globals"⟩)
                  | f :: _ =>
                      let fname := match nameV with
                        | .str s => if s == "" then c.co_name else s
                        | _ => c.co_name
                      (pushVals vm [.fn fname c defaults f.global_names], .ok Option.none)
              | _ => (vm, .error ⟨.attributeError, "object has no attribute co_name"⟩)

/-- `byte_RETURN_VALUE`: the produced value is the stack top, or the
host none when the stack is empty. -/
def byte_RETURN_VALUE (vm : VMState) : HRes :=
  match vm.frames with
  | [] => (vm, .error ⟨.attributeError, "NoneType object has no attribute stack"⟩)
  | f :: _ =>
      if f.stack.isEmpty then
        ({ vm with return_value := .none }, .ok (some "return"))
      else
        let (vm, r) := popVal vm
        match r with
        | .error e => (vm, .error e)
        | .ok v => ({ vm with return_value := v }, .ok (some "return"))

/-- `byte_COPY`: push the value `arg` slots below the top (a host
negative index; out of range raises IndexError). -/
def byte_COPY (vm : VMState) (arg : Value) : HRes :=
  match asInt arg with
  | Option.none => (vm, .error ⟨.typeError, "list indices must be integers"⟩)
  | some a =>
      match vm.frames with
      | [] => (vm, .error ⟨.attributeError, "NoneType object has no attribute stack"⟩)
      | f :: _ =>
          let n := f.stack.length
          let idx : Int := if a ≤ 0 then (0 : Int) - a else (n : Int) - a
          if 0 ≤ idx ∧ idx.toNat < n then
            (pushVals vm [f.stack.getD idx.toNat .none], .ok Option.none)
          else
            (vm, .error ⟨.indexError, "list index out of range"⟩)

/-- `byte_SWAP`: swap the two topmost values, but only when the operand
is 2; any other operand leaves the stack untouched. -/
def byte_SWAP (vm : VMState) (arg : Value) : HRes :=
  if arg.keyEq (.int 2) then
    match vm.frames with
    | [] => (vm, .error ⟨.attributeError, "NoneType object has no attribute stack"⟩)
    | f :: rest =>
        match f.stack.reverse with
        | a :: b :: tail =>
            ({ vm with frames :=
                { f with stack := (a :: b :: tail).reverse.dropLast.dropLast ++ [a, b] } :: rest },
             .ok Option.none)
        | _ => (vm, .error ⟨.indexError, "list index out of range"⟩)
  else
    (vm, .ok Option.none)

/-- `byte_LOAD_FAST_LOAD_FAST`: push the values bound to the code unit's
first two local-variable names, in order; a missing name table entry is
a host IndexError and an unbound name a host KeyError. -/
def byte_LOAD_FAST_LOAD_FAST (vm : VMState) (_arg : Value) : HRes :=
  match vm.frames with
  | [] => (vm, .error ⟨.attributeError, "NoneType object has no attribute code_obj"⟩)
  | f :: rest =>
      match f.code_obj.co_varnames with
      | [] => (vm, .error ⟨.indexError, "tuple index out of range"⟩)
      | [_] => (vm, .error ⟨.indexError, "tuple index out of range"⟩)
      | n0 :: n1 :: _ =>
          match mapLookup f.local_names (.str n0) with
          | Option.none => (vm, .error ⟨.keyError, n0⟩)
          | some v0 =>
              match mapLookup f.local_names (.str n1) with
              | Option.none => (vm, .error ⟨.keyError, n1⟩)
              | some v1 =>
                  ({ vm with frames := { f with stack := f.stack ++ [v0, v1] } :: rest },
                   .ok Option.none)

/-- The operator table local to `byte_BINARY_OP`, keyed by the numeric
operand. -/
def BINARY_OPS (arg : Nat) : Option (Value → Value → Except PyExc Value) :=
  match arg with
  | 0 => some vAdd
  | 1 => some vAnd
  | 2 => some vFloorDiv
  | 3 => some vLShift
  | 4 => some vMatMul
  | 5 => some vMul
  | 6 => some vMod
  | 7 => some vOr
  | 8 => some vPow
  | 9 => some vRShift
  | 10 => some vSub
  | 11 => some vTrueDiv
  | 12 => some vXor
  | _ => Option.none

/-- `byte_BINARY_OP`: an explicit stack-depth guard raising
`VirtualMachineError`, then `y, x = popn(2)` (so `y` is the lower value
and `x` the top) and push `op x y`; an operand outside the table is a
`VirtualMachineError`. -/
def byte_BINARY_OP (vm : VMState) (arg : Value) : HRes :=
  match vm.frames with
  | [] => (vm, .error ⟨.attributeError, "NoneType object has no attribute stack"⟩)
  | f :: _ =>
      if f.stack.length < 2 then
        (vm, .error ⟨.vmError, "stack too short for binary operation"⟩)
      else
        match arg with
        | .int a =>
            match BINARY_OPS a.toNat with
            | some op =>
                if 0 ≤ a then
                  let (vm, vals) := popn vm 2
                  match vals with
                  | [y, x] =>
                      match op x y with
                      | .error e => (vm, .error e)
                      | .ok r => (pushVals vm [r], .ok Option.none)
                  | _ => (vm, .error ⟨.valueError, "not enough values to unpack"⟩)
                else (vm, .error ⟨.vmError, "Unknown binary operation"⟩)
            | Option.none => (vm, .error ⟨.vmError, "Unknown binary operation"⟩)
        | _ => (vm, .error ⟨.vmError, "Unknown binary operation"⟩)

/-- `byte_COMPARE_OP`. -/
def byte_COMPARE_OP (vm : VMState) (opnum : Value) : HRes :=
  let (vm, vals) := popn vm 2
  match vals with
  | [x, y] =>
      match opnum with
      | .int a =>
          if 0 ≤ a then
            match compareOp a.toNat x y with
            | .error e => (vm, .error e)
            | .ok r => (pushVals vm [r], .ok Option.none)
          else (vm, .error ⟨.indexError, "list index out of range"⟩)
      | _ => (vm, .error ⟨.typeError, "list indices must be integers"⟩)
  | _ => (vm, .error ⟨.valueError, "not enough values to unpack"⟩)

/-- `inspect.getcallargs` for the positional calls the interpreter makes
(`func(*posargs)`; no call site passes keywords): bind positional
arguments to the leading parameters, fill the trailing parameters from
the right-aligned defaults, and raise a TypeError for excess positional
arguments or a missing required argument.  The loader guarantees
distinct parameter names. -/
def bindParams (params : List String) (args defaults : List Value) :
    Except PyExc ScopeMap :=
  match params, args with
  | [], _ => .ok []
  | ps, [] =>
      if ps.length ≤ defaults.length then
        .ok ((ps.zip (defaults.drop (defaults.length - ps.length))).map
              (fun p => (.str p.1, p.2)))
      else
        .error ⟨.typeError, "missing required positional argument"⟩
  | p :: ps, a :: rest =>
      match bindParams ps rest defaults with
      | .error e => .error e
      | .ok m => .ok ((.str p, a) :: m)

/-- `inspect.getcallargs(func, *args)` on a function built from `code`
with default tuple `defaults`. -/
def getcallargs (code : CodeObj) (defaults : List Value) (args : List Value) :
    Except PyExc ScopeMap :=
  if args.length > code.co_argcount then
    .error ⟨.typeError, "too many positional arguments"⟩
  else
    bindParams (code.co_varnames.take code.co_argcount) args defaults

/-- The dictionary `getcallargs` produces for an exact-arity positional
call: each declared parameter bound to its argument, in order. -/
def boundArgs (code : CodeObj) (args : List Value) : ScopeMap :=
  ((code.co_varnames.take code.co_argcount).zip args).map
    (fun p => (.str p.1, p.2))

/-- The `raise` at the end of `run_frame`: rebuild the exception from the
recorded `(type, value, traceback)` triple (`e = exc(val)`).  A
non-class first component fails the host call. -/
def reraise : Option (Value × Value × Value) → PyExc
  | some (.excType k, .excInst _ m, _) => ⟨k, m⟩
  | some (.excType k, .str m, _) => ⟨k, m⟩
  | some (.excType k, _, _) => ⟨k, ""⟩
  | some (_, _, _) => ⟨.typeError, "exceptions must derive from BaseException"⟩
  | Option.none => ⟨.typeError, "cannot unpack NoneType"⟩

/-- The triple `sys.exc_info()[:2] + (None,)` recorded by the dispatch
`except` clause. -/
def excTriple (e : PyExc) : Value × Value × Value :=
  (.excType e.kind, .excInst e.kind e.msg, .none)

/-- The host TypeError raised when a handler is applied to the wrong
number of decoder operands. -/
def arityError : PyExc := ⟨.typeError, "handler takes a different number of arguments"⟩

/-- `s.startswith(p)`. -/
def strStartsWith (s p : String) : Bool :=
  s.toList.take p.toList.length == p.toList

mutual

/-- Calling a guest value (`func(*posargs)` in the call handlers).  For a
`Function` this is `Function.__call__`: bind the arguments, build a
fresh frame over the function's captured globals with empty locals, and
drive it to completion.  Host callables are external to the modelled
value set.  The fuel bounds host call-stack depth; exhaustion is the
host RecursionError. -/
def callValue (fuel : Nat) (tbl : DisTable) (vm : VMState) (func : Value)
    (posargs : List Value) : VMState × Except PyExc Value :=
  match fuel with
  | 0 => (vm, .error ⟨.recursionError, "maximum recursion depth exceeded"⟩)
  | fuel + 1 =>
      match func with
      | .fn _ code defaults globs =>
          match getcallargs code defaults posargs with
          | .error e => (vm, .error e)
          | .ok callargs =>
              match make_frame vm code callargs (some globs) (some []) with
              | .error e => (vm, .error e)
              | .ok frame => run_frame fuel tbl vm frame
      | _ => (vm, .error ⟨.typeError, "object is not callable"⟩)

/-- `byte_CALL_FUNCTION`: split the operand into keyword/positional
counts (the keyword half is never popped), pop the positional arguments
and the callee, call it and push the result. -/
def byte_CALL_FUNCTION (fuel : Nat) (tbl : DisTable) (vm : VMState)
    (arg : Value) : HRes :=
  match fuel with
  | 0 => (vm, .error ⟨.recursionError, "maximum recursion depth exceeded"⟩)
  | fuel + 1 =>
      match asInt arg with
      | Option.none => (vm, .error ⟨.typeError, "operand must be an integer"⟩)
      | some a =>
          let lenPos := (Int.fmod a 256).toNat
          let (vm, posargs) := popn vm lenPos
          let (vm, rf) := popVal vm
          match rf with
          | .error e => (vm, .error e)
          | .ok func =>
              let (vm, rv) := callValue fuel tbl vm func posargs
              match rv with
              | .error e => (vm, .error e)
              | .ok retval => (pushVals vm [retval], .ok Option.none)

/-- `byte_CALL`: like `byte_CALL_FUNCTION` with the operand used directly
as the positional count. -/
def byte_CALL (fuel : Nat) (tbl : DisTable) (vm : VMState) (arg : Value) : HRes :=
  match fuel with
  | 0 => (vm, .error ⟨.recursionError, "maximum recursion depth exceeded"⟩)
  | fuel + 1 =>
      match asInt arg with
      | Option.none => (vm, .error ⟨.typeError, "operand must be an integer"⟩)
      | some a =>
          let (vm, posargs) := popn vm a.toNat
          let (vm, rf) := popVal vm
          match rf with
          | .error e => (vm, .error e)
          | .ok func =>
              let (vm, rv) := callValue fuel tbl vm func posargs
              match rv with
              | .error e => (vm, .error e)
              | .ok retval => (pushVals vm [retval], .ok Option.none)

/-- `bytecode_fn(*argument)`: apply a handler method to the decoded
operands, with the host checking the operand count against the handler
signature (the modern no-op handlers take an optional operand). -/
def runHandler (fuel : Nat) (tbl : DisTable) (vm : VMState) (kind : HandlerKind)
    (argument : List Value) : HRes :=
  match fuel with
  | 0 => (vm, .error ⟨.recursionError, "maximum recursion depth exceeded"⟩)
  | fuel + 1 =>
      match kind, argument with
      | .LOAD_CONST, [a] => byte_LOAD_CONST vm a
      | .LOAD_CONST, _ => (vm, .error arityError)
      | .LOAD_NAME, [a] => byte_LOAD_NAME vm a
      | .LOAD_NAME, _ => (vm, .error arityError)
      | .STORE_NAME, [a] => byte_STORE_NAME vm a
      | .STORE_NAME, _ => (vm, .error arityError)
      | .LOAD_FAST, [a] => byte_LOAD_FAST vm a
      | .LOAD_FAST, _ => (vm, .error arityError)
      | .STORE_FAST, [a] => byte_STORE_FAST vm a
      | .STORE_FAST, _ => (vm, .error arityError)
      | .LOAD_GLOBAL, [a] => byte_LOAD_GLOBAL vm a
      | .LOAD_GLOBAL, _ => (vm, .error arityError)
      | .LOAD_ATTR, [a] => byte_LOAD_ATTR vm a
      | .LOAD_ATTR, _ => (vm, .error arityError)
      | .STORE_ATTR, [a] => byte_STORE_ATTR vm a
      | .STORE_ATTR, _ => (vm, .error arityError)
      | .BUILD_LIST, [a] => byte_BUILD_LIST vm a
      | .BUILD_LIST, _ => (vm, .error arityError)
      | .BUILD_MAP, [a] => byte_BUILD_MAP vm a
      | .BUILD_MAP, _ => (vm, .error arityError)
      | .LIST_APPEND, [a] => byte_LIST_APPEND vm a
      | .LIST_APPEND, _ => (vm, .error arityError)
      | .JUMP_FORWARD, [a] => byte_JUMP_FORWARD vm a
      | .JUMP_FORWARD, _ => (vm, .error arityError)
      | .JUMP_ABSOLUTE, [a] => byte_JUMP_ABSOLUTE vm a
      | .JUMP_ABSOLUTE, _ => (vm, .error arityError)
      | .POP_JUMP_IF_TRUE, [a] => byte_POP_JUMP_IF_TRUE vm a
      | .POP_JUMP_IF_TRUE, _ => (vm, .error arityError)
      | .POP_JUMP_IF_FALSE, [a] => byte_POP_JUMP_IF_FALSE vm a
      | .POP_JUMP_IF_FALSE, _ => (vm, .error arityError)
      | .SETUP_LOOP, [a] => byte_SETUP_LOOP vm a
      | .SETUP_LOOP, _ => (vm, .error arityError)
      | .FOR_ITER, [a] => byte_FOR_ITER vm a
      | .FOR_ITER, _ => (vm, .error arityError)
      | .MAKE_FUNCTION, [a] => byte_MAKE_FUNCTION vm a
      | .MAKE_FUNCTION, _ => (vm, .error arityError)
      | .CALL_FUNCTION, [a] => byte_CALL_FUNCTION fuel tbl vm a
      | .CALL_FUNCTION, _ => (vm, .error arityError)
      | .CALL, [a] => byte_CALL fuel tbl vm a
      | .CALL, _ => (vm, .error arityError)
      | .COPY, [a] => byte_COPY vm a
      | .COPY, _ => (vm, .error arityError)
      | .SWAP, [a] => byte_SWAP vm a
      | .SWAP, _ => (vm, .error arityError)
      | .LOAD_FAST_LOAD_FAST, [a] => byte_LOAD_FAST_LOAD_FAST vm a
      | .LOAD_FAST_LOAD_FAST, _ => (vm, .error arityError)
      | .BINARY_OP, [a] => byte_BINARY_OP vm a
      | .BINARY_OP, _ => (vm, .error arityError)
      | .COMPARE_OP, [a] => byte_COMPARE_OP vm a
      | .COMPARE_OP, _ => (vm, .error arityError)
      | .POP_TOP, [] => byte_POP_TOP vm
      | .POP_TOP, _ => (vm, .error arityError)
      | .STORE_MAP, [] => byte_STORE_MAP vm
      | .STORE_MAP, _ => (vm, .error arityError)
      | .GET_ITER, [] => byte_GET_ITER vm
      | .GET_ITER, _ => (vm, .error arityError)
      | .BREAK_LOOP, [] => byte_BREAK_LOOP vm
      | .BREAK_LOOP, _ => (vm, .error arityError)
      | .POP_BLOCK, [] => byte_POP_BLOCK vm
      | .POP_BLOCK, _ => (vm, .error arityError)
      | .RETURN_VALUE, [] => byte_RETURN_VALUE vm
      | .RETURN_VALUE, _ => (vm, .error arityError)
      | .RESUME, [] => (vm, .ok Option.none)
      | .RESUME, [_] => (vm, .ok Option.none)
      | .RESUME, _ => (vm, .error arityError)
      | .CACHE, [] => (vm, .ok Option.none)
      | .CACHE, [_] => (vm, .ok Option.none)
      | .CACHE, _ => (vm, .error arityError)
      | .PRECALL, [] => (vm, .ok Option.none)
      | .PRECALL, [_] => (vm, .ok Option.none)
      | .PRECALL, _ => (vm, .error arityError)
      | .BEFORE_ASYNC_WITH, [] => (vm, .ok Option.none)
      | .BEFORE_ASYNC_WITH, [_] => (vm, .ok Option.none)
      | .BEFORE_ASYNC_WITH, _ => (vm, .error arityError)
      | .GET_AWAITABLE, [] => (vm, .ok Option.none)
      | .GET_AWAITABLE, [_] => (vm, .ok Option.none)
      | .GET_AWAITABLE, _ => (vm, .error arityError)
      | .GET_AITER, [] => (vm, .ok Option.none)
      | .GET_AITER, [_] => (vm, .ok Option.none)
      | .GET_AITER, _ => (vm, .error arityError)
      | .GET_ANEXT, [] => (vm, .ok Option.none)
      | .GET_ANEXT, [_] => (vm, .ok Option.none)
      | .GET_ANEXT, _ => (vm, .error arityError)
      | .BEFORE_WITH, [] => (vm, .ok Option.none)
      | .BEFORE_WITH, [_] => (vm, .ok Option.none)
      | .BEFORE_WITH, _ => (vm, .error arityError)

/-- The body of the dispatch `try`: the opcode-1 repair first (an
argument-less `BEFORE_ASYNC_WITH` is rerouted to
`byte_LOAD_FAST_LOAD_FAST` with operand 1 instead of its own no-op
handler), then the named handler, then the unary/binary operator
prefixes, and otherwise the ignore-unknown-opcodes policy. -/
def dispatchInner (fuel : Nat) (tbl : DisTable) (vm : VMState) (byte_name : String)
    (argument : List Value) : HRes :=
  match fuel with
  | 0 => (vm, .error ⟨.recursionError, "maximum recursion depth exceeded"⟩)
  | fuel + 1 =>
      if byte_name == "BEFORE_ASYNC_WITH" && argument.isEmpty then
        byte_LOAD_FAST_LOAD_FAST vm (.int 1)
      else
        match getHandler byte_name with
        | some k => runHandler fuel tbl vm k argument
        | Option.none =>
            if strStartsWith byte_name "UNARY_" then
              unaryOperator vm (byte_name.drop 6)
            else if strStartsWith byte_name "BINARY_" then
              binaryOperator vm (byte_name.drop 7)
            else
              (vm, .ok Option.none)

/-- `VirtualMachine.dispatch`: run the handler; any host exception is
captured into `last_exception` and reported as an `exception` signal. -/
def dispatch (fuel : Nat) (tbl : DisTable) (vm : VMState) (byte_name : String)
    (argument : List Value) : VMState × Option String :=
  match fuel with
  | 0 =>
      let e : PyExc := ⟨.recursionError, "maximum recursion depth exceeded"⟩
      ({ vm with last_exception := some (excTriple e) }, some "exception")
  | fuel + 1 =>
      let (vm, r) := dispatchInner fuel tbl vm byte_name argument
      match r with
      | .ok why => (vm, why)
      | .error e =>
          ({ vm with last_exception := some (excTriple e) }, some "exception")

/-- The fetch-dispatch-unwind loop body of `run_frame`, with the source's
`instruction_count` governor: the loop stops once the count passes 100.
The returned number is the final `instruction_count`; an `Except.error`
is a host exception propagating out of the loop uncaught. -/
def runLoop (fuel : Nat) (tbl : DisTable) (vm : VMState)
    (instruction_count : Nat) : VMState × Except PyExc (Option String) × Nat :=
  match fuel with
  | 0 =>
      (vm, .error ⟨.recursionError, "maximum recursion depth exceeded"⟩,
       instruction_count)
  | fuel + 1 =>
      let (vm, pr) := parse_byte_and_args tbl vm
      match pr with
      | .error e => (vm, .error e, instruction_count)
      | .ok (byte_name, arguments) =>
          let (vm, why) := dispatch fuel tbl vm byte_name arguments
          let blocks := match vm.frames with
            | f :: _ => f.block_stack.length
            | [] => 0
          let (vm, mr) := manageWhile (blocks + 1) vm why
          match mr with
          | .error e => (vm, .error e, instruction_count)
          | .ok why =>
              match why with
              | some w => (vm, .ok (some w), instruction_count)
              | Option.none =>
                  let c := instruction_count + 1
                  if c > 100 then (vm, .ok Option.none, c)
                  else runLoop fuel tbl vm c

/-- `VirtualMachine.run_frame`: push the frame, drive the loop, pop the
frame, and re-raise a pending `exception` signal or produce
`return_value`.  A host exception escaping the loop propagates before
the frame is popped, as in the source. -/
def run_frame (fuel : Nat) (tbl : DisTable) (vm : VMState) (frame : Frame) :
    VMState × Except PyExc Value :=
  match fuel with
  | 0 => (vm, .error ⟨.recursionError, "maximum recursion depth exceeded"⟩)
  | fuel + 1 =>
      let vm := push_frame vm frame
      let (vm, r, _count) := runLoop fuel tbl vm 0
      match r with
      | .error e => (vm, .error e)
      | .ok why =>
          let vm := pop_frame vm
          if why == some "exception" then
            (vm, .error (reraise vm.last_exception))
          else
            (vm, .ok vm.return_value)

end

/-- `VirtualMachine.run_code`. -/
def run_code (fuel : Nat) (tbl : DisTable) (vm : VMState) (code : CodeObj)
    (callargs : ScopeMap) (global_names local_names : Option ScopeMap) :
    VMState × Except PyExc Value :=
  match make_frame vm code callargs global_names local_names with
  | .error e => (vm, .error e)
  | .ok frame => run_frame fuel tbl vm frame

/-! Concrete fixtures for the executable checks: a representative host
`dis` table (the numbering is host data, external to the repository; the
operand classes follow the `dis` module conventions the decoder relies
on) and small code units and machine states. -/

/-- A model of the host `dis` tables for the opcodes the checks use. -/
def modelDis : DisTable where
  opname := fun b =>
    match b with
    | 83 => "RETURN_VALUE"
    | 100 => "LOAD_CONST"
    | 113 => "JUMP_ABSOLUTE"
    | 122 => "BINARY_OP"
    | 124 => "LOAD_FAST"
    | _ => "<UNKNOWN>"
  HAVE_ARGUMENT := 90
  hasconst := [100]
  hasname := []
  haslocal := [124]
  hasjrel := []

/-- The compiled two-argument `add` function of the spec scenario:
load both locals, apply binary addition (`BINARY_OP 0`), return. -/
def addCode : CodeObj :=
  .mk "add" [124, 0, 0, 124, 1, 0, 122, 0, 0, 83] [] [] ["a", "b"] 2

/-- `callargs = dict(a=2, b=5)`. -/
def addArgs : ScopeMap := [(.str "a", .int 2), (.str "b", .int 5)]

/-- A caller globals mapping carrying the host builtins module, like the
`globals()` the tests pass. -/
def addGlobals : ScopeMap := [(.str "__builtins__", .builtinsModule)]

/-- A code unit that jumps to itself forever: `JUMP_ABSOLUTE 0`. -/
def spinCode : CodeObj := .mk "spin" [113, 0, 0] [] [] [] 0

/-- A frame at the start of `spinCode`. -/
def spinFrame : Frame :=
  { code_obj := spinCode, global_names := [], local_names := [],
    builtin_names := .dict [], stack := [], block_stack := [], last_instruction := 0 }

/-- `spinFrame` with the instruction pointer past the decoded jump. -/
def spinFrame3 : Frame := { spinFrame with last_instruction := 3 }

/-- A machine running only `spinFrame`. -/
def spinVM : VMState :=
  { frames := [spinFrame], return_value := .none, last_exception := Option.none }

/-- `spinVM` mid-decode. -/
def spinVM3 : VMState :=
  { frames := [spinFrame3], return_value := .none, last_exception := Option.none }

/-- A frame with one local, one global, and one builtin binding, for
scope-resolution checks. -/
def scopeFrame : Frame :=
  { code_obj := addCode, global_names := [(.str "g", .int 11)],
    local_names := [(.str "x", .int 1)],
    builtin_names := .dict [(.str "b", .int 22)],
    stack := [], block_stack := [], last_instruction := 0 }

/-- A machine whose current frame is `scopeFrame`. -/
def scopeVM : VMState :=
  { frames := [scopeFrame], return_value := .none, last_exception := Option.none }

/-- A frame whose stack holds one value to keep, an exception triple, and
one slack value, for unwind checks. -/
def unwindFrame : Frame :=
  { code_obj := addCode, global_names := [], local_names := [],
    builtin_names := .dict [],
    stack := [.int 1, .str "tb", .str "val", .str "ty"],
    block_stack := [], last_instruction := 0 }

/-- A machine whose current frame is `unwindFrame`. -/
def unwindVM : VMState :=
  { frames := [unwindFrame], return_value := .none, last_exception := Option.none }

/-- A code unit whose only instruction is a constant load with operand
index 5 over an empty constant pool. -/
def badConstCode : CodeObj := .mk "f" [100, 5, 0] [] [] [] 0

/-- A frame at the start of `badConstCode`. -/
def badConstFrame : Frame :=
  { code_obj := badConstCode, global_names := [], local_names := [],
    builtin_names := .dict [], stack := [], block_stack := [], last_instruction := 0 }

/-- A machine running `badConstFrame`. -/
def badConstVM : VMState :=
  { frames := [badConstFrame], return_value := .none, last_exception := Option.none }

/-- A one-parameter code unit with no body, for call-binding checks. -/
def oneArgCode : CodeObj := .mk "f" [] [] [] ["a"] 1

/-- A frame over `addCode` with both parameters bound, for the
`LOAD_FAST_LOAD_FAST` check. -/
def lflfFrame : Frame :=
  { code_obj := addCode, global_names := [], local_names := addArgs,
    builtin_names := .dict [], stack := [], block_stack := [], last_instruction := 0 }

/-- A machine whose current frame is `lflfFrame`. -/
def lflfVM : VMState :=
  { frames := [lflfFrame], return_value := .none, last_exception := Option.none }

/-- A frame over a code unit with no local-variable names. -/
def noVarsFrame : Frame :=
  { code_obj := .mk "f" [] [] [] [] 0, global_names := [], local_names := [],
    builtin_names := .dict [], stack := [], block_stack := [], last_instruction := 0 }

/-- A machine whose current frame is `noVarsFrame`. -/
def noVarsVM : VMState :=
  { frames := [noVarsFrame], return_value := .none, last_exception := Option.none }

/-- A code unit whose jump instruction has only one trailing operand
byte. -/
def shortCode : CodeObj := .mk "s" [113, 0] [] [] [] 0

/-- A frame at the start of `shortCode`. -/
def shortFrame : Frame :=
  { code_obj := shortCode, global_names := [], local_names := [],
    builtin_names := .dict [], stack := [], block_stack := [], last_instruction := 0 }

/-- A machine running `shortFrame`. -/
def shortVM : VMState :=
  { frames := [shortFrame], return_value := .none, last_exception := Option.none }

/-! Helper lemmas: stepping the self-jump program, used to exhibit the
instruction-count governor. -/

theorem spin_parse : parse_byte_and_args modelDis spinVM =
    (spinVM3, .ok ("JUMP_ABSOLUTE", [.int 0])) := by
  simp [parse_byte_and_args, modelDis, spinVM, spinVM3, spinFrame, spinFrame3, spinCode,
    CodeObj.co_code, CodeObj.co_consts, CodeObj.co_names, CodeObj.co_varnames]

theorem spin_dispatch (fuel : Nat) :
    dispatch (fuel + 3) modelDis spinVM3 "JUMP_ABSOLUTE" [.int 0] = (spinVM, Option.none) := by
  simp [dispatch, dispatchInner, runHandler, getHandler, byte_JUMP_ABSOLUTE, jump,
    asJumpTarget, spinVM3, spinVM, spinFrame3, spinFrame]

theorem spin_step (fuel count : Nat) :
    runLoop (fuel + 4) modelDis spinVM count =
      if count + 1 > 100 then (spinVM, .ok Option.none, count + 1)
      else runLoop (fuel + 3) modelDis spinVM (count + 1) := by
  rw [show fuel + 4 = Nat.succ (fuel + 3) from rfl, runLoop.eq_2, spin_parse]
  simp only [spin_dispatch]
  simp only [manageWhile, spinVM, spinFrame]

theorem spin_runs (n : Nat) : ∀ fuel count, count + n = 100 →
    runLoop (n + (fuel + 4)) modelDis spinVM count = (spinVM, .ok Option.none, 101) := by
  induction n with
  | zero =>
      intro fuel count h
      have hc : count = 100 := by omega
      subst hc
      rw [Nat.zero_add, spin_step, if_pos (by omega)]
  | succ n ih =>
      intro fuel count h
      have he : n + 1 + (fuel + 4) = (n + 1 + fuel) + 4 := by omega
      rw [he, spin_step, if_neg (by omega)]
      have h2 : n + 1 + fuel + 3 = n + (fuel + 4) := by omega
      rw [h2]
      exact ih fuel (count + 1) (by omega)

theorem spin_full : runLoop 104 modelDis spinVM 0 = (spinVM, .ok Option.none, 101) := by
  have := spin_runs 100 0 0 (by omega)
  simpa using this

/-- C1: for the two-argument `add` function executed with locals `a = 2`
and `b = 5` over its compiled instruction sequence (load both locals,
apply binary addition, return), `run_code` returns exactly 7. -/
theorem c1_run_code_add_returns_seven :
    (run_code 50 modelDis initVM addCode addArgs (some addGlobals) Option.none).2 =
      .ok (.int 7) := by
  simp [run_code, run_frame, runLoop, dispatch, dispatchInner, runHandler, getHandler,
    parse_byte_and_args, manageWhile, manage_block_stack, make_frame, Frame.init,
    mapUpdate, mapInsert, mapContains, mapLookup, Value.keyEq, push_frame, pop_frame,
    popVal, popn, pushVals, byte_LOAD_FAST, byte_BINARY_OP, byte_RETURN_VALUE,
    BINARY_OPS, vAdd, asInt, modelDis, addCode, addArgs, addGlobals, initVM, jump,
    hostBuiltins, defaultModuleScope, reraise, excTriple, CodeObj.co_name,
    CodeObj.co_code, CodeObj.co_consts, CodeObj.co_names, CodeObj.co_varnames,
    CodeObj.co_argcount]

/-- C8: a single frame's fetch-dispatch loop executes at most a fixed
bound of instructions — the final `instruction_count` never exceeds 101
(the governor stops the loop once the count passes 100) — and when the
cap, rather than an unwind signal, stops the loop, `run_frame` pops the
frame and returns the pending `return_value` as if the run had completed
normally. -/
theorem c8_instruction_cap :
    (∀ fuel tbl vm count, count ≤ 100 →
      (runLoop fuel tbl vm count).2.2 ≤ 101) ∧
    (∀ fuel tbl vm frame vm2 cnt,
      runLoop fuel tbl (push_frame vm frame) 0 = (vm2, .ok Option.none, cnt) →
      run_frame (fuel + 1) tbl vm frame = (pop_frame vm2, .ok vm2.return_value)) := by
  constructor
  · intro fuel
    induction fuel with
    | zero =>
        intro tbl vm count h
        simp only [runLoop]
        omega
    | succ n ih =>
        intro tbl vm count h
        rw [runLoop.eq_2]
        repeat' split
        all_goals dsimp only
        any_goals omega
        all_goals (
          rename_i heq1
          split
          · dsimp only; omega
          · split
            · dsimp only; omega
            · split
              · dsimp only; omega
              · exact ih _ _ _ (by omega))
  · intro fuel tbl vm frame vm2 cnt h
    rw [show fuel + 1 = Nat.succ fuel from rfl, run_frame.eq_2, h]
    simp [pop_frame]

/-- C8 witness: the self-jump program is stopped by the governor after
101 dispatches and the capped call returns the pending value. -/
theorem c8_instruction_cap_witness :
    (0 ≤ 100 ∧ (runLoop 104 modelDis spinVM 0).2.2 ≤ 101) ∧
    run_frame 105 modelDis initVM spinFrame = (initVM, .ok Value.none) := by
  constructor
  · exact ⟨by omega, c8_instruction_cap.1 104 modelDis spinVM 0 (by omega)⟩
  · have h : runLoop 104 modelDis (push_frame initVM spinFrame) 0 =
        (spinVM, .ok Option.none, 101) := spin_full
    exact c8_instruction_cap.2 104 modelDis initVM spinFrame spinVM 101 h

/-- C2: `byte_LOAD_NAME` searches locals, then globals, then builtins,
in that order, pushing the value from the first mapping containing the
name, and raises the undefined-name fault (`NameError`) when none
contains it; `byte_LOAD_FAST` consults locals only and raises the
unbound-local fault (`UnboundLocalError`), a different exception kind,
when the name is absent. -/
theorem c2_scope_resolution :
    ∀ (vm : VMState) (f : Frame) (rest : List Frame) (name : String) (bmap : ScopeMap),
      vm.frames = f :: rest → f.builtin_names = .dict bmap →
      ((∀ v, mapLookup f.local_names (.str name) = some v →
          byte_LOAD_NAME vm (.str name) =
            ({ vm with frames := { f with stack := f.stack ++ [v] } :: rest },
             .ok Option.none)) ∧
       (mapLookup f.local_names (.str name) = Option.none →
        ∀ v, mapLookup f.global_names (.str name) = some v →
          byte_LOAD_NAME vm (.str name) =
            ({ vm with frames := { f with stack := f.stack ++ [v] } :: rest },
             .ok Option.none)) ∧
       (mapLookup f.local_names (.str name) = Option.none →
        mapLookup f.global_names (.str name) = Option.none →
        ∀ v, mapLookup bmap (.str name) = some v →
          byte_LOAD_NAME vm (.str name) =
            ({ vm with frames := { f with stack := f.stack ++ [v] } :: rest },
             .ok Option.none)) ∧
       (mapLookup f.local_names (.str name) = Option.none →
        mapLookup f.global_names (.str name) = Option.none →
        mapLookup bmap (.str name) = Option.none →
          byte_LOAD_NAME vm (.str name) =
            (vm, .error ⟨.nameError, "name is not defined"⟩)) ∧
       (∀ v, mapLookup f.local_names (.str name) = some v →
          byte_LOAD_FAST vm (.str name) =
            ({ vm with frames := { f with stack := f.stack ++ [v] } :: rest },
             .ok Option.none)) ∧
       (mapLookup f.local_names (.str name) = Option.none →
          byte_LOAD_FAST vm (.str name) =
            (vm, .error ⟨.unboundLocalError,
              "local variable referenced before assignment"⟩))) := by
  intro vm f rest name bmap hframes hbuiltins
  refine ⟨?_, ?_, ?_, ?_, ?_, ?_⟩
  · intro v hl
    simp [byte_LOAD_NAME, hframes, hl]
  · intro hl v hg
    simp [byte_LOAD_NAME, hframes, hl, hg]
  · intro hl hg v hb
    simp [byte_LOAD_NAME, hframes, hl, hg, hbuiltins, hb]
  · intro hl hg hb
    simp [byte_LOAD_NAME, hframes, hl, hg, hbuiltins, hb]
  · intro v hl
    simp [byte_LOAD_FAST, hframes, hl]
  · intro hl
    simp [byte_LOAD_FAST, hframes, hl]

/-- C2 witness: on a frame with `x` local, `g` global, and `b` builtin,
the three lookups push from the right mapping, a missing name is a
NameError, and the local-only lookup pushes `x` but gives `w` an
UnboundLocalError. -/
theorem c2_scope_resolution_witness :
    byte_LOAD_NAME scopeVM (.str "x") =
      ({ scopeVM with frames := [{ scopeFrame with stack := [.int 1] }] },
       .ok Option.none) ∧
    byte_LOAD_NAME scopeVM (.str "g") =
      ({ scopeVM with frames := [{ scopeFrame with stack := [.int 11] }] },
       .ok Option.none) ∧
    byte_LOAD_NAME scopeVM (.str "b") =
      ({ scopeVM with frames := [{ scopeFrame with stack := [.int 22] }] },
       .ok Option.none) ∧
    byte_LOAD_NAME scopeVM (.str "w") =
      (scopeVM, .error ⟨.nameError, "name is not defined"⟩) ∧
    byte_LOAD_FAST scopeVM (.str "x") =
      ({ scopeVM with frames := [{ scopeFrame with stack := [.int 1] }] },
       .ok Option.none) ∧
    byte_LOAD_FAST scopeVM (.str "g") =
      (scopeVM, .error ⟨.unboundLocalError,
        "local variable referenced before assignment"⟩) := by
  have h := c2_scope_resolution scopeVM scopeFrame [] "x"
    [(.str "b", .int 22)] rfl rfl
  have hg := c2_scope_resolution scopeVM scopeFrame [] "g"
    [(.str "b", .int 22)] rfl rfl
  have hb := c2_scope_resolution scopeVM scopeFrame [] "b"
    [(.str "b", .int 22)] rfl rfl
  have hw := c2_scope_resolution scopeVM scopeFrame [] "w"
    [(.str "b", .int 22)] rfl rfl
  refine ⟨h.1 (.int 1) rfl, ?_, ?_, ?_, h.2.2.2.2.1 (.int 1) rfl, ?_⟩
  · exact hg.2.1 rfl (.int 11) rfl
  · exact hb.2.2.1 rfl rfl (.int 22) rfl
  · exact hw.2.2.2.1 rfl rfl rfl
  · exact hg.2.2.2.2.2 rfl

/-- C3: unwinding a block truncates the operand stack back to exactly
the block's recorded `stack_height`; for an except-handler block 3 extra
slots above that height are kept and then popped as
`(traceback, value, type)` into `last_exception`. -/
theorem c3_unwind_block_truncates :
    (∀ (vm : VMState) (f : Frame) (rest : List Frame) (b : Block)
        (pre junk : List Value),
      vm.frames = f :: rest → b.type ≠ "except-handler" →
      f.stack = pre ++ junk → pre.length = b.stack_height →
      unwind_block vm b =
        ({ vm with frames := { f with stack := pre } :: rest }, .ok ())) ∧
    (∀ (vm : VMState) (f : Frame) (rest : List Frame) (b : Block)
        (pre : List Value) (tb v ty : Value) (junk : List Value),
      vm.frames = f :: rest → b.type = "except-handler" →
      f.stack = pre ++ [tb, v, ty] ++ junk → pre.length = b.stack_height →
      unwind_block vm b =
        ({ vm with
            frames := { f with stack := pre } :: rest,
            last_exception := some (ty, v, tb) }, .ok ())) := by
  constructor
  · intro vm f rest b pre junk hframes hb hstack hlen
    have hbt : (b.type == "except-handler") = false := by
      simpa using hb
    rw [unwind_block, hframes]
    simp only [hbt, Bool.false_eq_true, if_false, hstack, ← hlen, Nat.add_zero,
      List.take_left]
  · intro vm f rest b pre tb v ty junk hframes hb hstack hlen
    have hbt : (b.type == "except-handler") = true := by simpa using hb
    have hstack2 : f.stack = (pre ++ [tb, v, ty]) ++ junk := by
      rw [hstack, List.append_assoc]
    have hlen3 : b.stack_height + 3 = (pre ++ [tb, v, ty]).length := by
      simp [← hlen]
    rw [unwind_block, hframes]
    simp only [hbt, if_true, hstack2, hlen3, List.take_left]
    have hlenlen : (pre ++ [tb, v, ty]).length - 3 = pre.length := by simp
    simp only [hlenlen, List.take_left, List.drop_left]

/-- C3 witness: unwinding a loop block of height 1 truncates the
four-value stack to its first value; unwinding an except-handler block
of height 1 keeps and pops the three slots above it into
`last_exception`. -/
theorem c3_unwind_block_truncates_witness :
    unwind_block unwindVM ⟨"loop", some 7, 1⟩ =
      ({ unwindVM with frames := [{ unwindFrame with stack := [.int 1] }] },
       .ok ()) ∧
    unwind_block unwindVM ⟨"except-handler", Option.none, 1⟩ =
      ({ unwindVM with
          frames := [{ unwindFrame with stack := [.int 1] }],
          last_exception := some (.str "ty", .str "val", .str "tb") }, .ok ()) := by
  constructor
  · exact c3_unwind_block_truncates.1 unwindVM unwindFrame [] ⟨"loop", some 7, 1⟩
      [.int 1] [.str "tb", .str "val", .str "ty"] rfl (by decide) rfl rfl
  · exact c3_unwind_block_truncates.2 unwindVM unwindFrame []
      ⟨"except-handler", Option.none, 1⟩ [.int 1] (.str "tb") (.str "val")
      (.str "ty") [] rfl rfl rfl rfl

/-- C4: with the instruction pointer at or past the end of the byte
stream, decode returns a synthetic `RETURN_VALUE` with the state (and
pointer) untouched; an argument-taking opcode with fewer than two
trailing operand bytes decodes to that opcode with a zero operand, the
pointer advanced only past the opcode byte (no partial operand read). -/
theorem c4_decode_bounds :
    (∀ (tbl : DisTable) (vm : VMState) (f : Frame) (rest : List Frame),
      vm.frames = f :: rest →
      f.last_instruction ≥ f.code_obj.co_code.length →
      parse_byte_and_args tbl vm = (vm, .ok ("RETURN_VALUE", []))) ∧
    (∀ (tbl : DisTable) (vm : VMState) (f : Frame) (rest : List Frame),
      vm.frames = f :: rest →
      f.last_instruction < f.code_obj.co_code.length →
      f.code_obj.co_code.getD f.last_instruction 0 ≥ tbl.HAVE_ARGUMENT →
      f.last_instruction + 2 ≥ f.code_obj.co_code.length →
      parse_byte_and_args tbl vm =
        ({ vm with frames :=
            { f with last_instruction := f.last_instruction + 1 } :: rest },
         .ok (tbl.opname (f.code_obj.co_code.getD f.last_instruction 0),
              [.int 0]))) := by
  constructor
  · intro tbl vm f rest hframes hend
    rw [parse_byte_and_args, hframes]
    simp only [if_pos hend]
  · intro tbl vm f rest hframes hlt harg hshort
    rw [parse_byte_and_args, hframes]
    dsimp only
    rw [if_neg (by omega), if_pos harg, if_pos (by omega)]

/-- C4 witness: decoding `spinFrame3` (pointer past the end) yields the
synthetic return; decoding a one-operand-byte `JUMP_ABSOLUTE` yields a
zero operand with the pointer advanced one byte. -/
theorem c4_decode_bounds_witness :
    parse_byte_and_args modelDis spinVM3 = (spinVM3, .ok ("RETURN_VALUE", [])) ∧
    parse_byte_and_args modelDis shortVM =
      ({ shortVM with frames := [{ shortFrame with last_instruction := 1 }] },
       .ok ("JUMP_ABSOLUTE", [.int 0])) := by
  constructor
  · exact c4_decode_bounds.1 modelDis spinVM3 spinFrame3 [] rfl (by decide)
  · exact c4_decode_bounds.2 modelDis shortVM shortFrame [] rfl
      (by decide) (by decide) (by decide)

/-- C10: for every operand value, `byte_BUILD_MAP` pushes a fresh empty
dictionary, pops nothing, and leaves the rest of the state unchanged. -/
theorem c10_build_map_pushes_empty_dict :
    ∀ (vm : VMState) (f : Frame) (rest : List Frame) (size : Value),
      vm.frames = f :: rest →
      byte_BUILD_MAP vm size =
        ({ vm with frames := { f with stack := f.stack ++ [.dict []] } :: rest },
         .ok Option.none) := by
  intro vm f rest size hframes
  simp [byte_BUILD_MAP, pushVals, hframes]

/-- C10 witness: `byte_BUILD_MAP` with operand 5 pushes `{}` onto the
scope fixture's empty stack. -/
theorem c10_build_map_pushes_empty_dict_witness :
    byte_BUILD_MAP scopeVM (.int 5) =
      ({ scopeVM with frames := [{ scopeFrame with stack := [.dict []] }] },
       .ok Option.none) := by
  exact c10_build_map_pushes_empty_dict scopeVM scopeFrame [] (.int 5) rfl

/-- C6: for every opcode name with no explicit handler method and no
unary/binary operator name, dispatch leaves the whole machine state —
operand stack, block stack, and instruction pointer included — unchanged
and produces no unwind signal: the opcode is ignored, not faulted.  (The
`fuel + 2` gives the host two call-stack levels for the dispatch
plumbing.) -/
theorem c6_unknown_opcode_is_noop :
    ∀ (fuel : Nat) (tbl : DisTable) (vm : VMState) (name : String)
      (args : List Value),
      getHandler name = Option.none →
      strStartsWith name "UNARY_" = false →
      strStartsWith name "BINARY_" = false →
      dispatch (fuel + 2) tbl vm name args = (vm, Option.none) := by
  intro fuel tbl vm name args hG hU hB
  have hbaw : (name == "BEFORE_ASYNC_WITH") = false := by
    cases hx : name == "BEFORE_ASYNC_WITH" with
    | false => rfl
    | true =>
        have hn := eq_of_beq hx
        rw [hn] at hG
        simp [getHandler] at hG
  simp [dispatch, dispatchInner, hbaw, hG, hU, hB]

/-- C6 witness: dispatching the unknown opcode name `NOP_EXT` on the
scope fixture leaves the state unchanged with no signal. -/
theorem c6_unknown_opcode_is_noop_witness :
    dispatch 7 modelDis scopeVM "NOP_EXT" [.int 3] = (scopeVM, Option.none) := by
  exact c6_unknown_opcode_is_noop 5 modelDis scopeVM "NOP_EXT" [.int 3]
    (by simp [getHandler]) (by decide) (by decide)

/-- C9: an argument-less `BEFORE_ASYNC_WITH` is dispatched to
`byte_LOAD_FAST_LOAD_FAST` with operand 1 instead of its own no-op
handler: the values bound to the code unit's first two local-variable
names are pushed in order, and a code unit with fewer than two local
names, or an unbound name, makes the dispatch report an exception
signal. -/
theorem c9_before_async_with_reroute :
    (∀ (fuel : Nat) (tbl : DisTable) (vm : VMState),
      dispatchInner (fuel + 1) tbl vm "BEFORE_ASYNC_WITH" [] =
        byte_LOAD_FAST_LOAD_FAST vm (.int 1)) ∧
    (∀ (fuel : Nat) (tbl : DisTable) (vm : VMState) (f : Frame)
        (rest : List Frame) (n0 n1 : String) (ns : List String) (v0 v1 : Value),
      vm.frames = f :: rest → f.code_obj.co_varnames = n0 :: n1 :: ns →
      mapLookup f.local_names (.str n0) = some v0 →
      mapLookup f.local_names (.str n1) = some v1 →
      dispatch (fuel + 2) tbl vm "BEFORE_ASYNC_WITH" [] =
        ({ vm with frames := { f with stack := f.stack ++ [v0, v1] } :: rest },
         Option.none)) ∧
    (∀ (fuel : Nat) (tbl : DisTable) (vm : VMState) (f : Frame)
        (rest : List Frame),
      vm.frames = f :: rest → f.code_obj.co_varnames.length < 2 →
      (dispatch (fuel + 2) tbl vm "BEFORE_ASYNC_WITH" []).2 = some "exception") ∧
    (∀ (fuel : Nat) (tbl : DisTable) (vm : VMState) (f : Frame)
        (rest : List Frame) (n0 n1 : String) (ns : List String),
      vm.frames = f :: rest → f.code_obj.co_varnames = n0 :: n1 :: ns →
      (mapLookup f.local_names (.str n0) = Option.none ∨
        mapLookup f.local_names (.str n1) = Option.none) →
      (dispatch (fuel + 2) tbl vm "BEFORE_ASYNC_WITH" []).2 = some "exception") := by
  refine ⟨?_, ?_, ?_, ?_⟩
  · intro fuel tbl vm
    simp [dispatchInner]
  · intro fuel tbl vm f rest n0 n1 ns v0 v1 hframes hvars h0 h1
    simp [dispatch, dispatchInner, byte_LOAD_FAST_LOAD_FAST, hframes, hvars, h0, h1]
  · intro fuel tbl vm f rest hframes hvars
    match hv : f.code_obj.co_varnames, hvars with
    | [], _ =>
        simp [dispatch, dispatchInner, byte_LOAD_FAST_LOAD_FAST, hframes, hv]
    | [n0], _ =>
        simp [dispatch, dispatchInner, byte_LOAD_FAST_LOAD_FAST, hframes, hv]
  · intro fuel tbl vm f rest n0 n1 ns hframes hvars hnone
    rcases hnone with h0 | h1
    · simp [dispatch, dispatchInner, byte_LOAD_FAST_LOAD_FAST, hframes, hvars, h0]
    · cases h0 : mapLookup f.local_names (.str n0) with
      | none =>
          simp [dispatch, dispatchInner, byte_LOAD_FAST_LOAD_FAST, hframes, hvars, h0]
      | some v0 =>
          simp [dispatch, dispatchInner, byte_LOAD_FAST_LOAD_FAST, hframes, hvars,
            h0, h1]

/-- C9 witness: on the `add` frame the rerouted dispatch pushes the two
parameter values; on a frame with no local names it reports an
exception signal. -/
theorem c9_before_async_with_reroute_witness :
    dispatchInner 9 modelDis lflfVM "BEFORE_ASYNC_WITH" [] =
      byte_LOAD_FAST_LOAD_FAST lflfVM (.int 1) ∧
    dispatch 9 modelDis lflfVM "BEFORE_ASYNC_WITH" [] =
      ({ lflfVM with frames := [{ lflfFrame with stack := [.int 2, .int 5] }] },
       Option.none) ∧
    (dispatch 9 modelDis noVarsVM "BEFORE_ASYNC_WITH" []).2 = some "exception" := by
  refine ⟨c9_before_async_with_reroute.1 8 modelDis lflfVM, ?_, ?_⟩
  · have := c9_before_async_with_reroute.2.1 7 modelDis lflfVM lflfFrame []
      "a" "b" [] (.int 2) (.int 5) rfl rfl rfl rfl
    simpa [lflfVM, lflfFrame] using this
  · exact c9_before_async_with_reroute.2.2.1 7 modelDis noVarsVM noVarsFrame []
      rfl (by decide)

/-- C5 counterexample: decoding a constant-load whose operand index 5 is
out of range for the empty constant pool does NOT signal a decode fault:
it returns normally with the operand resolved to the host none. -/
theorem c5_counterexample_out_of_range_const_is_ok :
    parse_byte_and_args modelDis badConstVM =
      ({ badConstVM with frames := [{ badConstFrame with last_instruction := 3 }] },
       .ok ("LOAD_CONST", [Value.none])) := by
  simp [parse_byte_and_args, modelDis, badConstVM, badConstFrame, badConstCode,
    CodeObj.co_code, CodeObj.co_consts, CodeObj.co_names, CodeObj.co_varnames]

/-- C5 (amended): for every constant-index opcode whose operand index is
out of range for the code unit's constant pool, decoding does not fault:
it resolves the operand to the host none value and returns the opcode
normally, the pointer advanced past opcode and operand. -/
theorem c5_out_of_range_const_resolves_to_none :
    ∀ (tbl : DisTable) (vm : VMState) (f : Frame) (rest : List Frame),
      vm.frames = f :: rest →
      f.last_instruction < f.code_obj.co_code.length →
      f.code_obj.co_code.getD f.last_instruction 0 ≥ tbl.HAVE_ARGUMENT →
      f.last_instruction + 2 < f.code_obj.co_code.length →
      tbl.hasconst.contains (f.code_obj.co_code.getD f.last_instruction 0) = true →
      ¬ ((f.code_obj.co_code.getD (f.last_instruction + 1) 0 |||
          (f.code_obj.co_code.getD (f.last_instruction + 2) 0) <<< 8) <
         f.code_obj.co_consts.length) →
      parse_byte_and_args tbl vm =
        ({ vm with frames :=
            { f with last_instruction := f.last_instruction + 3 } :: rest },
         .ok (tbl.opname (f.code_obj.co_code.getD f.last_instruction 0),
              [Value.none])) := by
  intro tbl vm f rest hframes hlt harg hlong hconst hoob
  rw [parse_byte_and_args, hframes]
  dsimp only
  rw [if_neg (by omega), if_pos harg, if_neg (by omega), if_pos hconst,
    if_neg (by simpa using hoob)]

/-- C5 (amended) witness: the `badConstVM` decode instantiates the
amended statement. -/
theorem c5_out_of_range_const_resolves_to_none_witness :
    parse_byte_and_args modelDis badConstVM =
      ({ badConstVM with frames := [{ badConstFrame with last_instruction := 3 }] },
       .ok ("LOAD_CONST", [Value.none])) := by
  have := c5_out_of_range_const_resolves_to_none modelDis badConstVM badConstFrame
    [] rfl (by decide) (by decide) (by decide) (by decide) (by decide)
  simpa [badConstFrame] using this

/-! Helper lemmas for the call-binding claims. -/

theorem bindParams_short : ∀ (params : List String) (args : List Value),
    args.length < params.length →
    bindParams params args [] =
      .error ⟨.typeError, "missing required positional argument"⟩ := by
  intro params
  induction params with
  | nil => intro args h; simp at h
  | cons p ps ih =>
      intro args h
      cases args with
      | nil => simp [bindParams]
      | cons a rest =>
          have hr := ih rest (by simpa using h)
          simp [bindParams, hr]

theorem bindParams_exact : ∀ (params : List String) (args : List Value),
    params.length = args.length →
    bindParams params args [] =
      .ok ((params.zip args).map (fun p => (.str p.1, p.2))) := by
  intro params
  induction params with
  | nil =>
      intro args h
      cases args with
      | nil => simp [bindParams]
      | cons a rest => simp at h
  | cons p ps ih =>
      intro args h
      cases args with
      | nil => simp at h
      | cons a rest =>
          have hr := ih rest (by simpa using h)
          simp [bindParams, hr]

theorem getcallargs_too_few (code : CodeObj) (args : List Value)
    (hv : code.co_argcount ≤ code.co_varnames.length)
    (h : args.length < code.co_argcount) :
    getcallargs code [] args =
      .error ⟨.typeError, "missing required positional argument"⟩ := by
  rw [getcallargs, if_neg (by omega)]
  exact bindParams_short _ _ (by rw [List.length_take]; omega)

theorem getcallargs_exact (code : CodeObj) (args : List Value)
    (hv : code.co_argcount ≤ code.co_varnames.length)
    (h : args.length = code.co_argcount) :
    getcallargs code [] args = .ok (boundArgs code args) := by
  rw [getcallargs, if_neg (by omega), boundArgs]
  exact bindParams_exact _ _ (by rw [List.length_take]; omega)

theorem mapContains_append_single (m : ScopeMap) (p : Value × Value) (k : Value) :
    mapContains (m ++ [p]) k = (mapContains m k || p.1.keyEq k) := by
  induction m with
  | nil => cases h : p.1.keyEq k <;> simp [mapContains, mapLookup, List.find?, h]
  | cons q rest ih =>
      by_cases hq : q.1.keyEq k
      · simp [mapContains, mapLookup, List.find?, hq]
      · simpa [mapContains, mapLookup, List.find?, hq] using ih

theorem mapUpdate_fresh : ∀ (ps : List (Value × Value)) (m : ScopeMap),
    ps.Pairwise (fun a b => a.1.keyEq b.1 = false) →
    (∀ p ∈ ps, mapContains m p.1 = false) →
    mapUpdate m ps = m ++ ps := by
  intro ps
  induction ps with
  | nil => intro m _ _; simp [mapUpdate]
  | cons p rest ih =>
      intro m hpw hfresh
      have hp : mapContains m p.1 = false := hfresh p (by simp)
      have hstep : mapInsert m p.1 p.2 = m ++ [p] := by
        simp [mapInsert, hp]
      have hrest : mapUpdate (m ++ [p]) rest = (m ++ [p]) ++ rest := by
        refine ih (m ++ [p]) hpw.tail ?_
        intro q hq
        rw [mapContains_append_single]
        have h1 : mapContains m q.1 = false := hfresh q (by simp [hq])
        have h2 : p.1.keyEq q.1 = false := (List.pairwise_cons.mp hpw).1 q hq
        simp [h1, h2]
      calc mapUpdate m (p :: rest)
          = mapUpdate (mapInsert m p.1 p.2) rest := by simp [mapUpdate]
        _ = mapUpdate (m ++ [p]) rest := by rw [hstep]
        _ = (m ++ [p]) ++ rest := hrest
        _ = m ++ p :: rest := by simp

theorem boundArgs_pairwise (code : CodeObj) (args : List Value)
    (hlen : code.co_argcount ≤ code.co_varnames.length)
    (hexact : args.length = code.co_argcount)
    (hnd : (code.co_varnames.take code.co_argcount).Nodup) :
    (boundArgs code args).Pairwise (fun a b => a.1.keyEq b.1 = false) := by
  rw [boundArgs, List.pairwise_map]
  have hz : ((code.co_varnames.take code.co_argcount).zip args).Pairwise
      (fun a b => a.1 ≠ b.1) := by
    have hmap : ((code.co_varnames.take code.co_argcount).zip args).map Prod.fst =
        code.co_varnames.take code.co_argcount := by
      apply List.map_fst_zip
      rw [List.length_take]
      omega
    have hnd2 : (((code.co_varnames.take code.co_argcount).zip args).map
        Prod.fst).Pairwise (· ≠ ·) := by
      rw [hmap]; exact hnd
    rw [List.pairwise_map] at hnd2
    exact hnd2
  exact hz.imp (fun h => by simpa [Value.keyEq] using beq_eq_false_iff_ne.mpr h)

/-- C7 counterexample: binding the one-parameter function to the exact
arity `(2)` gives callargs `{a: 2}`, but the frame built from them (as
`Function.__call__` builds it) has locals carrying an extra
`__builtins__` entry, so the locals do NOT equal exactly the bound
arguments. -/
theorem c7_counterexample_locals_carry_builtins :
    getcallargs oneArgCode [] [Value.int 2] = .ok [(Value.str "a", Value.int 2)] ∧
    make_frame initVM oneArgCode [(Value.str "a", Value.int 2)]
        (some []) (some []) =
      .ok { code_obj := oneArgCode, global_names := [],
            local_names := [(.str "__builtins__", .builtinsModule),
                            (.str "a", .int 2)],
            builtin_names := .dict [], stack := [], block_stack := [],
            last_instruction := 0 } ∧
    [((Value.str "__builtins__" : Value), (Value.builtinsModule : Value)),
     (Value.str "a", Value.int 2)] ≠ [(Value.str "a", Value.int 2)] := by
  refine ⟨?_, ?_, ?_⟩
  · simp [getcallargs, bindParams, oneArgCode, CodeObj.co_argcount,
      CodeObj.co_varnames]
  · simp [make_frame, Frame.init, initVM, mapUpdate, mapInsert, mapContains,
      mapLookup, Value.keyEq, List.find?, hostBuiltins, oneArgCode]
  · intro h
    simpa using congrArg List.length h

/-- C7 (amended): calling a `Function` with too few required arguments
and no defaults signals the call-arity fault (a host TypeError from
argument binding); calling it with exactly the declared arity binds each
parameter to its argument, and the fresh frame's locals equal the bound
arguments together with one extra `__builtins__` entry — the host
builtins module when the function's globals carry none, else the value
copied from its globals. -/
theorem c7_call_arity_and_frame_locals :
    (∀ (fuel : Nat) (tbl : DisTable) (vm : VMState) (nm : String)
        (code : CodeObj) (globs : ScopeMap) (args : List Value),
      code.co_argcount ≤ code.co_varnames.length →
      args.length < code.co_argcount →
      callValue (fuel + 1) tbl vm (.fn nm code [] globs) args =
        (vm, .error ⟨.typeError, "missing required positional argument"⟩)) ∧
    (∀ (vm : VMState) (pf : Frame) (prest : List Frame) (code : CodeObj)
        (globs : ScopeMap) (args : List Value),
      vm.frames = pf :: prest →
      args.length = code.co_argcount →
      code.co_argcount ≤ code.co_varnames.length →
      (code.co_varnames.take code.co_argcount).Nodup →
      "__builtins__" ∉ code.co_varnames.take code.co_argcount →
      mapContains globs (.str "__builtins__") = false →
      getcallargs code [] args = .ok (boundArgs code args) ∧
      make_frame vm code (boundArgs code args) (some globs) (some []) =
        .ok { code_obj := code, global_names := globs,
              local_names := (.str "__builtins__", .builtinsModule) ::
                boundArgs code args,
              builtin_names := pf.builtin_names, stack := [], block_stack := [],
              last_instruction := 0 }) ∧
    (∀ (vm : VMState) (pf : Frame) (prest : List Frame) (code : CodeObj)
        (globs : ScopeMap) (args : List Value) (bv : Value),
      vm.frames = pf :: prest →
      args.length = code.co_argcount →
      code.co_argcount ≤ code.co_varnames.length →
      (code.co_varnames.take code.co_argcount).Nodup →
      "__builtins__" ∉ code.co_varnames.take code.co_argcount →
      mapLookup globs (.str "__builtins__") = some bv →
      getcallargs code [] args = .ok (boundArgs code args) ∧
      make_frame vm code (boundArgs code args) (some globs) (some []) =
        .ok { code_obj := code, global_names := globs,
              local_names := (.str "__builtins__", bv) :: boundArgs code args,
              builtin_names := pf.builtin_names, stack := [], block_stack := [],
              last_instruction := 0 }) := by
  have hfresh : ∀ (code : CodeObj) (args : List Value) (w : Value),
      "__builtins__" ∉ code.co_varnames.take code.co_argcount →
      ∀ p ∈ boundArgs code args,
        mapContains [((Value.str "__builtins__" : Value), w)] p.1 = false := by
    intro code args w hnb p hp
    rw [boundArgs] at hp
    obtain ⟨q, hq, rfl⟩ := List.mem_map.mp hp
    have hq1 : q.1 ∈ code.co_varnames.take code.co_argcount := (List.of_mem_zip hq).1
    have hne : q.1 ≠ "__builtins__" := fun h => hnb (h ▸ hq1)
    have hb : ("__builtins__" == q.1) = false := beq_eq_false_iff_ne.mpr (Ne.symm hne)
    simp [mapContains, mapLookup, List.find?, Value.keyEq, hb]
  refine ⟨?_, ?_, ?_⟩
  · intro fuel tbl vm nm code globs args hv h
    simp [callValue, getcallargs_too_few code args hv h]
  · intro vm pf prest code globs args hframes hex hlen hnd hnb hgb
    refine ⟨getcallargs_exact code args hlen hex, ?_⟩
    have hupd : mapUpdate [((Value.str "__builtins__" : Value),
        (Value.builtinsModule : Value))] (boundArgs code args) =
        (.str "__builtins__", .builtinsModule) :: boundArgs code args := by
      simpa using mapUpdate_fresh (boundArgs code args) _
        (boundArgs_pairwise code args hlen hex hnd)
        (hfresh code args .builtinsModule hnb)
    rw [make_frame]
    dsimp only
    rw [if_neg (by simp [mapContains, mapLookup, List.find?])]
    rw [if_neg (by simp [hgb])]
    have hins : mapInsert ([] : ScopeMap) (.str "__builtins__") .builtinsModule =
        [(.str "__builtins__", .builtinsModule)] := by
      simp [mapInsert, mapContains, mapLookup, List.find?]
    rw [hins, hupd, hframes]
    simp [Frame.init]
  · intro vm pf prest code globs args bv hframes hex hlen hnd hnb hgb
    refine ⟨getcallargs_exact code args hlen hex, ?_⟩
    have hupd : mapUpdate [((Value.str "__builtins__" : Value), bv)]
        (boundArgs code args) =
        (.str "__builtins__", bv) :: boundArgs code args := by
      simpa using mapUpdate_fresh (boundArgs code args) _
        (boundArgs_pairwise code args hlen hex hnd)
        (hfresh code args bv hnb)
    have hglen : globs.isEmpty = false := by
      cases globs with
      | nil => simp [mapLookup, List.find?] at hgb
      | cons q qs => simp
    rw [make_frame]
    dsimp only
    rw [if_neg (by simp [mapContains, mapLookup, List.find?])]
    rw [if_pos (by simp [hglen, mapContains, hgb])]
    have hc0 : mapContains ([] : ScopeMap) (.str "__builtins__") = false := by
      simp [mapContains, mapLookup, List.find?]
    have hins : mapInsert ([] : ScopeMap) (.str "__builtins__")
        ((mapLookup globs (.str "__builtins__")).getD .none) =
        [(.str "__builtins__", bv)] := by
      simp [mapInsert, hc0, hgb]
    rw [hins, hupd, hframes]
    simp [Frame.init]

/-- C7 (amended) witness: calling the one-parameter function with no
arguments faults; binding it to `(2)` and building the frame as
`Function.__call__` does yields locals `{__builtins__: module, a: 2}`. -/
theorem c7_call_arity_and_frame_locals_witness :
    callValue 5 modelDis scopeVM (.fn "f" oneArgCode [] []) [] =
      (scopeVM, .error ⟨.typeError, "missing required positional argument"⟩) ∧
    getcallargs oneArgCode [] [Value.int 2] = .ok (boundArgs oneArgCode [Value.int 2]) ∧
    make_frame scopeVM oneArgCode (boundArgs oneArgCode [Value.int 2])
        (some []) (some []) =
      .ok { code_obj := oneArgCode, global_names := [],
            local_names := (.str "__builtins__", .builtinsModule) ::
              boundArgs oneArgCode [Value.int 2],
            builtin_names := scopeFrame.builtin_names, stack := [],
            block_stack := [], last_instruction := 0 } ∧
    getcallargs oneArgCode [] [Value.int 3] = .ok (boundArgs oneArgCode [Value.int 3]) ∧
    make_frame scopeVM oneArgCode (boundArgs oneArgCode [Value.int 3])
        (some [(.str "__builtins__", .dict [])]) (some []) =
      .ok { code_obj := oneArgCode,
            global_names := [(.str "__builtins__", .dict [])],
            local_names := (.str "__builtins__", .dict []) ::
              boundArgs oneArgCode [Value.int 3],
            builtin_names := scopeFrame.builtin_names, stack := [],
            block_stack := [], last_instruction := 0 } := by
  have h1 := c7_call_arity_and_frame_locals.1 4 modelDis scopeVM "f" oneArgCode []
    [] (by decide) (by decide)
  have h2 := c7_call_arity_and_frame_locals.2.1 scopeVM scopeFrame [] oneArgCode
    [] [Value.int 2] rfl (by decide) (by decide) (by decide) (by decide)
    (by decide)
  have h3 := c7_call_arity_and_frame_locals.2.2 scopeVM scopeFrame [] oneArgCode
    [(.str "__builtins__", .dict [])] [Value.int 3] (.dict [])
    rfl (by decide) (by decide) (by decide) (by decide) rfl
  exact ⟨h1, h2.1, h2.2, h3.1, h3.2⟩

end ByteRun
